import Mathlib

/-!
# Configuration resolution of `src/load-config.js`

A shallow embedding of the module that builds the server configuration:
the loading of the file configuration (`defaultDataDir`, `parseJSON`,
`userConfig`, lines 13-52), the layer merger (`config`, lines 84-103), the
override resolver (`finalConfig`, lines 105-202) and the debug output
(lines 203-225), followed by theorems about them.

Conventions of the embedding.

* `process.env` is a function from variable names to optional strings
  (`none` is `undefined`).  A string is truthy when it is not empty.
* JavaScript numbers are `JsNumber`: `NaN`, a finite value or an infinity.
  Negative zero is identified with zero (both are falsy, and the module
  neither divides by a number nor compares one).
* Language and platform built-ins whose full definition lies outside the
  module (`ToNumber` on strings, `String.prototype.toLowerCase`, `path.join`)
  are the fields of a `Builtins` record.  General theorems quantify over every
  such record; `refBuiltins` is a concrete one used at concrete inputs.
* The file system and `JSON.parse` are the fields of a `Host` record, and the
  conversion of a number inside a template literal is a parameter of the
  debug output.
* A thrown exception is the `error` case of `Except JsError`.  The properties
  of an object literal are evaluated in source order, so the first rule that
  throws decides the outcome.
* Records follow the `Config` type named in the JSDoc annotations.  A field is
  optional exactly where the module itself tests for its absence
  (`config.https || ...`, `config.openId?.`, `if (finalConfig.upload)`).
-/

namespace LoadConfig

/-! ## Values -/

/-- JavaScript number values, as far as this module can observe them. -/
inductive JsNumber where
  | nan
  | finite (q : ℚ)
  | infinity (negative : Bool)
  deriving DecidableEq, Repr

/-- Truthiness of a number: `NaN` and zero are falsy. -/
def JsNumber.truthy : JsNumber → Bool
  | .nan => false
  | .finite q => decide (q ≠ 0)
  | .infinity _ => true

/-- The expression `a || b` on numbers. -/
def JsNumber.or (a b : JsNumber) : JsNumber :=
  if a.truthy then a else b

/-- An exception thrown while the module is evaluated. -/
inductive JsError where
  /-- The value of `new Error(message)`. -/
  | error (message : String)
  /-- Reading property `property` of `undefined` or `null`. -/
  | typeError (property : String)
  deriving DecidableEq, Repr

/-- The object `process.env`. -/
abbrev Env := String → Option String

/-- An environment given by a list of bindings (the first binding of a name wins). -/
def Env.ofList (bindings : List (String × String)) : Env :=
  fun name => (bindings.find? (fun b => decide (b.1 = name))).map Prod.snd

/-- The value of an environment variable when it is truthy (set and not empty). -/
def truthy : Option String → Option String
  | some s => if s = "" then none else some s
  | none => none

/-- The expression `v || d` for an optional string `v` and a string `d`. -/
def strOr (v : Option String) (d : String) : String :=
  match truthy v with
  | some s => s
  | none => d

/-- Built-ins of the language and platform that the module calls. -/
structure Builtins where
  /-- `ToNumber` applied to a string (the unary `+` of the source). -/
  stringToNumber : String → JsNumber
  /-- `String.prototype.toLowerCase`. -/
  toLowerCase : String → String
  /-- `path.join` of node. -/
  pathJoin : List String → String

/-- The expression `+v` for a possibly undefined string: `+undefined` is `NaN`. -/
def Builtins.toNumber (B : Builtins) : Option String → JsNumber
  | some s => B.stringToNumber s
  | none => .nan

/-! ## String helpers written out in full -/

/-- `text.replace(/\\n/g, '\n')` on the characters of a string: every
backslash directly followed by `n` becomes one line feed, scanning left to
right without overlap. -/
def replaceEscapedNewlines : List Char → List Char
  | [] => []
  | [c] => [c]
  | c :: d :: rest =>
    if c = '\\' ∧ d = 'n' then '\n' :: replaceEscapedNewlines rest
    else c :: replaceEscapedNewlines (d :: rest)

/-- `text.replace(/\\n/g, '\n')` on strings. -/
def unescapeNewlines (s : String) : String :=
  String.mk (replaceEscapedNewlines s.data)

/-- `text.split(',')` on the characters of a string. -/
def splitComma : List Char → List (List Char)
  | [] => [[]]
  | c :: rest =>
    if c = ',' then [] :: splitComma rest
    else
      match splitComma rest with
      | [] => [[c]]
      | piece :: pieces => (c :: piece) :: pieces

/-- White space and line terminators of ECMAScript, the characters removed by `trim`. -/
def isJsSpace (c : Char) : Bool :=
  let n := c.toNat
  n = 0x09 || n = 0x0A || n = 0x0B || n = 0x0C || n = 0x0D || n = 0x20 || n = 0xA0
    || n = 0x1680 || (0x2000 ≤ n && n ≤ 0x200A) || n = 0x2028 || n = 0x2029
    || n = 0x202F || n = 0x205F || n = 0x3000 || n = 0xFEFF

/-- `String.prototype.trim` on the characters of a string. -/
def jsTrim (cs : List Char) : List Char :=
  ((cs.dropWhile isJsSpace).reverse.dropWhile isJsSpace).reverse

/-- `text.split(',').map((q) => q.trim())`. -/
def splitTrim (s : String) : List String :=
  (splitComma s.data).map (fun q => String.mk (jsTrim q))

/-! ## A concrete record of built-ins -/

/-- Value of a string of decimal digits, `none` when another character occurs. -/
def decimalValue (cs : List Char) : Option Nat :=
  cs.foldl (fun acc c => acc.bind (fun n => if c.isDigit then some (10 * n + (c.toNat - 48)) else none))
    (some 0)

/-- Reference built-ins.  `stringToNumber` agrees with `ToNumber` on the empty
string and on strings of decimal digits and answers `NaN` elsewhere;
`toLowerCase` lowers ASCII letters; `pathJoin` joins with `/`. -/
def refBuiltins : Builtins where
  stringToNumber := fun s =>
    match decimalValue s.data with
    | some n => .finite n
    | none => .nan
  toLowerCase := fun s => String.mk (s.data.map Char.toLower)
  pathJoin := fun parts => "/".intercalate parts

/-! ## Records -/

/-- The `https` sub-object. -/
structure Https where
  key : String
  cert : String
  deriving DecidableEq, Repr

/-- The `upload` sub-object: three limits in megabytes. -/
structure Upload where
  fileSizeSyncLimitMB : JsNumber
  syncEncryptedFileSizeLimitMB : JsNumber
  fileSizeLimitMB : JsNumber
  deriving DecidableEq, Repr

/-- The structured issuer built from the endpoint variables.  Each field holds
the raw value of its variable. -/
structure IssuerEndpoints where
  name : Option String
  authorization_endpoint : Option String
  token_endpoint : Option String
  userinfo_endpoint : Option String
  deriving DecidableEq, Repr

/-- The `issuer` of an OpenID descriptor: a discovery URL or explicit endpoints. -/
inductive Issuer where
  | url (discovery : String)
  | endpoints (e : IssuerEndpoints)
  deriving DecidableEq, Repr

/-- The `openId` sub-object. -/
structure OpenId where
  issuer : Issuer
  client_id : Option String
  client_secret : Option String
  server_hostname : Option String
  deriving DecidableEq, Repr

/-- The configuration record (`Config` of `config-types.js`). -/
structure Config where
  mode : String
  loginMethod : String
  trustedProxies : List String
  dataDir : String
  projectRoot : String
  port : JsNumber
  hostname : String
  serverFiles : String
  userFiles : String
  webRoot : String
  https : Option Https
  upload : Option Upload
  openId : Option OpenId
  multiuser : Bool
  token_expiration : String
  deriving DecidableEq, Repr

/-- The record `Omit<Config, 'mode' | 'dataDir' | 'serverFiles' | 'userFiles'>`. -/
structure DefaultConfig where
  loginMethod : String
  trustedProxies : List String
  port : JsNumber
  hostname : String
  webRoot : String
  https : Option Https
  upload : Option Upload
  openId : Option OpenId
  projectRoot : String
  multiuser : Bool
  token_expiration : String
  deriving DecidableEq, Repr

/-- The parsed configuration file: any subset of the keys of `Config`.  `none`
is a key that the file does not have.  The three optional sub-objects can also
be present with the JSON value `null`, which is `some none`. -/
structure FileConfig where
  mode : Option String
  loginMethod : Option String
  trustedProxies : Option (List String)
  dataDir : Option String
  projectRoot : Option String
  port : Option JsNumber
  hostname : Option String
  serverFiles : Option String
  userFiles : Option String
  webRoot : Option String
  https : Option (Option Https)
  upload : Option (Option Upload)
  openId : Option (Option OpenId)
  multiuser : Option Bool
  token_expiration : Option String
  deriving DecidableEq, Repr

/-- The empty object, the file configuration when no file was found. -/
def FileConfig.empty : FileConfig :=
  ⟨none, none, none, none, none, none, none, none, none, none, none, none, none, none, none⟩

/-! ## Layer merger (lines 54-103) -/

/-- The literal `defaultConfig` (lines 55-82). -/
def defaultConfig (B : Builtins) (projectRoot : String) : DefaultConfig where
  loginMethod := "password"
  trustedProxies := ["10.0.0.0/8", "172.16.0.0/12", "192.168.0.0/16", "fc00::/7", "::1/128"]
  port := .finite 5006
  hostname := "::"
  webRoot := B.pathJoin [projectRoot, "node_modules", "@actual-app", "web", "build"]
  https := none
  upload := some ⟨.finite 20, .finite 50, .finite 20⟩
  openId := none
  projectRoot := projectRoot
  multiuser := false
  token_expiration := "never"

/-- The variable `config` (lines 85-103).  In the test branch the four pinned
fields come first and the defaults are spread over them; in the other branch
the file configuration is spread last. -/
def config (B : Builtins) (defaultConfig : DefaultConfig) (projectRoot defaultDataDir : String)
    (userConfig : FileConfig) (env : Env) : Config :=
  if env "NODE_ENV" = some "test" then
    { mode := "test"
      dataDir := projectRoot
      serverFiles := B.pathJoin [projectRoot, "test-server-files"]
      userFiles := B.pathJoin [projectRoot, "test-user-files"]
      loginMethod := defaultConfig.loginMethod
      trustedProxies := defaultConfig.trustedProxies
      port := defaultConfig.port
      hostname := defaultConfig.hostname
      webRoot := defaultConfig.webRoot
      https := defaultConfig.https
      upload := defaultConfig.upload
      openId := defaultConfig.openId
      projectRoot := defaultConfig.projectRoot
      multiuser := defaultConfig.multiuser
      token_expiration := defaultConfig.token_expiration }
  else
    { mode := userConfig.mode.getD "development"
      loginMethod := userConfig.loginMethod.getD defaultConfig.loginMethod
      trustedProxies := userConfig.trustedProxies.getD defaultConfig.trustedProxies
      port := userConfig.port.getD defaultConfig.port
      hostname := userConfig.hostname.getD defaultConfig.hostname
      webRoot := userConfig.webRoot.getD defaultConfig.webRoot
      https := userConfig.https.getD defaultConfig.https
      upload := userConfig.upload.getD defaultConfig.upload
      openId := userConfig.openId.getD defaultConfig.openId
      projectRoot := userConfig.projectRoot.getD defaultConfig.projectRoot
      multiuser := userConfig.multiuser.getD defaultConfig.multiuser
      token_expiration := userConfig.token_expiration.getD defaultConfig.token_expiration
      dataDir := userConfig.dataDir.getD defaultDataDir
      serverFiles := userConfig.serverFiles.getD (B.pathJoin [defaultDataDir, "server-files"])
      userFiles := userConfig.userFiles.getD (B.pathJoin [defaultDataDir, "user-files"]) }

/-! ## Override resolver (lines 105-202) -/

/-- Property `loginMethod` (lines 107-109). -/
def finalConfig_loginMethod (B : Builtins) (config : Config) (env : Env) : String :=
  match truthy (env "AUTUMN_LOGIN_METHOD") with
  | some s => B.toLowerCase s
  | none => config.loginMethod

/-- Property `multiuser` (lines 110-118). -/
def finalConfig_multiuser (B : Builtins) (config : Config) (env : Env) : Except JsError Bool :=
  match truthy (env "AUTUMN_MULTIUSER") with
  | some s =>
    let value := B.toLowerCase s
    if ¬ (value = "true" ∨ value = "false") then
      .error (.error "AUTUMN_MULTIUSER must be either \"true\" or \"false\"")
    else
      .ok (decide (value = "true"))
  | none => .ok config.multiuser

/-- Property `trustedProxies` (lines 119-121). -/
def finalConfig_trustedProxies (config : Config) (env : Env) : List String :=
  match truthy (env "AUTUMN_TRUSTED_PROXIES") with
  | some s => splitTrim s
  | none => config.trustedProxies

/-- Property `port` (line 122). -/
def finalConfig_port (B : Builtins) (config : Config) (env : Env) : JsNumber :=
  ((B.toNumber (env "AUTUMN_PORT")).or (B.toNumber (env "PORT"))).or config.port

/-- Property `https` (lines 127-134).  The spread of `config.https || {}` comes
after `key` and `cert`, so its properties replace the ones just written. -/
def finalConfig_https (config : Config) (env : Env) : Option Https :=
  match truthy (env "AUTUMN_HTTPS_KEY"), truthy (env "AUTUMN_HTTPS_CERT") with
  | some k, some c =>
    let fresh : Https := { key := unescapeNewlines k, cert := unescapeNewlines c }
    match config.https with
    | some h => some { fresh with key := h.key, cert := h.cert }
    | none => some fresh
  | _, _ => config.https

/-- The expression `x || config.upload.<property>`: the property is read only
when `x` is falsy, and reading it from an absent `upload` throws. -/
def orUploadProperty (x : JsNumber) (upload : Option Upload) (property : String)
    (get : Upload → JsNumber) : Except JsError JsNumber :=
  if x.truthy then .ok x
  else
    match upload with
    | some u => .ok (get u)
    | none => .error (.typeError property)

/-- Property `upload` (lines 135-152). -/
def finalConfig_upload (B : Builtins) (config : Config) (env : Env) :
    Except JsError (Option Upload) :=
  let sync := env "AUTUMN_UPLOAD_FILE_SYNC_SIZE_LIMIT_MB"
  let encrypted := env "AUTUMN_UPLOAD_SYNC_ENCRYPTED_FILE_SYNC_SIZE_LIMIT_MB"
  let file := env "AUTUMN_UPLOAD_FILE_SIZE_LIMIT_MB"
  if (truthy sync).isSome ∨ (truthy encrypted).isSome ∨ (truthy file).isSome then do
    let fileSizeSyncLimitMB ←
      orUploadProperty ((B.toNumber sync).or (B.toNumber file)) config.upload
        "fileSizeSyncLimitMB" Upload.fileSizeSyncLimitMB
    let syncEncryptedFileSizeLimitMB ←
      orUploadProperty ((B.toNumber encrypted).or (B.toNumber file)) config.upload
        "syncEncryptedFileSizeLimitMB" Upload.syncEncryptedFileSizeLimitMB
    let fileSizeLimitMB ←
      orUploadProperty (B.toNumber file) config.upload
        "fileSizeLimitMB" Upload.fileSizeLimitMB
    pure (some ⟨fileSizeSyncLimitMB, syncEncryptedFileSizeLimitMB, fileSizeLimitMB⟩)
  else
    .ok config.upload

/-- The names in `required` whose value is falsy (lines 164-172). -/
def missingEndpoints (env : Env) : List String :=
  ([ ("authorization_endpoint", env "AUTUMN_OPENID_AUTHORIZATION_ENDPOINT"),
     ("token_endpoint", env "AUTUMN_OPENID_TOKEN_ENDPOINT"),
     ("userinfo_endpoint", env "AUTUMN_OPENID_USERINFO_ENDPOINT") ].filter
      (fun entry => (truthy entry.2).isNone)).map Prod.fst

/-- The constant `baseConfig` (lines 160-187): the issuer of the new descriptor. -/
def openIdIssuer (env : Env) : Except JsError Issuer :=
  match truthy (env "AUTUMN_OPENID_DISCOVERY_URL") with
  | some discovery => .ok (.url discovery)
  | none =>
    let missing := missingEndpoints env
    if missing.length > 0 then
      .error (.error ("Missing required OpenID configuration: " ++ ", ".intercalate missing))
    else
      .ok (.endpoints
        { name := env "AUTUMN_OPENID_PROVIDER_NAME"
          authorization_endpoint := env "AUTUMN_OPENID_AUTHORIZATION_ENDPOINT"
          token_endpoint := env "AUTUMN_OPENID_TOKEN_ENDPOINT"
          userinfo_endpoint := env "AUTUMN_OPENID_USERINFO_ENDPOINT" })

/-- Property `openId` (lines 153-198).  The operator `??` keeps an empty string. -/
def finalConfig_openId (config : Config) (env : Env) : Except JsError (Option OpenId) :=
  if (truthy (env "AUTUMN_OPENID_DISCOVERY_URL")).isNone ∧
      (truthy (env "AUTUMN_OPENID_AUTHORIZATION_ENDPOINT")).isNone then
    .ok config.openId
  else do
    let issuer ← openIdIssuer env
    pure (some
      { issuer := issuer
        client_id := (env "AUTUMN_OPENID_CLIENT_ID").orElse
          (fun _ => config.openId.bind OpenId.client_id)
        client_secret := (env "AUTUMN_OPENID_CLIENT_SECRET").orElse
          (fun _ => config.openId.bind OpenId.client_secret)
        server_hostname := (env "AUTUMN_OPENID_SERVER_HOSTNAME").orElse
          (fun _ => config.openId.bind OpenId.server_hostname) })

/-- The constant `finalConfig` (lines 105-202).  The three properties that can
throw are evaluated in source order: `multiuser`, `upload`, `openId`. -/
def finalConfig (B : Builtins) (config : Config) (env : Env) : Except JsError Config := do
  let multiuser ← finalConfig_multiuser B config env
  let upload ← finalConfig_upload B config env
  let openId ← finalConfig_openId config env
  pure
    { config with
      loginMethod := finalConfig_loginMethod B config env
      multiuser := multiuser
      trustedProxies := finalConfig_trustedProxies config env
      port := finalConfig_port B config env
      hostname := strOr (env "AUTUMN_HOSTNAME") config.hostname
      serverFiles := strOr (env "AUTUMN_SERVER_FILES") config.serverFiles
      userFiles := strOr (env "AUTUMN_USER_FILES") config.userFiles
      webRoot := strOr (env "AUTUMN_WEB_ROOT") config.webRoot
      https := finalConfig_https config env
      upload := upload
      openId := openId
      token_expiration := strOr (env "AUTUMN_TOKEN_EXPIRATION") config.token_expiration }

/-- The record assembled by `finalConfig` from the results of its three throwing rules. -/
def assemble (B : Builtins) (config : Config) (env : Env) (multiuser : Bool)
    (upload : Option Upload) (openId : Option OpenId) : Config :=
  { config with
    loginMethod := finalConfig_loginMethod B config env
    multiuser := multiuser
    trustedProxies := finalConfig_trustedProxies config env
    port := finalConfig_port B config env
    hostname := strOr (env "AUTUMN_HOSTNAME") config.hostname
    serverFiles := strOr (env "AUTUMN_SERVER_FILES") config.serverFiles
    userFiles := strOr (env "AUTUMN_USER_FILES") config.userFiles
    webRoot := strOr (env "AUTUMN_WEB_ROOT") config.webRoot
    https := finalConfig_https config env
    upload := upload
    openId := openId
    token_expiration := strOr (env "AUTUMN_TOKEN_EXPIRATION") config.token_expiration }

/-! ## Sample inputs -/

/-- The base configuration of a development start without a configuration file. -/
def sampleConfig : Config :=
  config refBuiltins (defaultConfig refBuiltins "/app") "/app" "/data" FileConfig.empty
    (Env.ofList [])

/-! ## Loading the file configuration (lines 13-52) -/

/-- The file system and `JSON.parse`, as the module uses them.  `readFileSync`
and `jsonParse` throw by returning an error; `jsonParse` gives the parsed value
seen through the keys of `Config`. -/
structure Host where
  existsSync : String → Bool
  readFileSync : String → Except JsError String
  jsonParse : String → Except JsError FileConfig

/-- The variable `defaultDataDir` after lines 13-17. -/
def defaultDataDir (host : Host) (projectRoot : String) (env : Env) : String :=
  strOr (env "AUTUMN_DATA_DIR") (if host.existsSync "/data" then "/data" else projectRoot)

/-- The function `parseJSON` (lines 21-33): a read failure is swallowed when
`allowMissing` holds, a parse failure never is. -/
def parseJSON (host : Host) (path : String) (allowMissing : Bool) : Except JsError FileConfig :=
  match host.readFileSync path with
  | .error e => if allowMissing then .ok FileConfig.empty else .error e
  | .ok text => host.jsonParse text

/-- Lines 35-52: the variable `userConfig`, paired with the value of
`defaultDataDir` after these lines (line 42 reassigns it in the first branch
only). -/
def userConfig (B : Builtins) (host : Host) (projectRoot : String) (env : Env) :
    Except JsError (FileConfig × String) :=
  match truthy (env "AUTUMN_CONFIG_PATH") with
  | some configPath => do
    let loaded ← parseJSON host configPath false
    pure (loaded, loaded.dataDir.getD (defaultDataDir host projectRoot env))
  | none =>
    let configFile :=
      if host.existsSync (B.pathJoin [projectRoot, "config.json"]) then
        B.pathJoin [projectRoot, "config.json"]
      else
        B.pathJoin [defaultDataDir host projectRoot env, "config.json"]
    do
      let loaded ← parseJSON host configFile true
      pure (loaded, defaultDataDir host projectRoot env)

/-- Lines 13-103 together: the base configuration of the module. -/
def loadedConfig (B : Builtins) (host : Host) (projectRoot : String) (env : Env) :
    Except JsError Config := do
  let (loaded, dataDirectory) ← userConfig B host projectRoot env
  pure (config B (defaultConfig B projectRoot) projectRoot dataDirectory loaded env)

/-- The default export of the module: the base configuration with the
overrides applied. -/
def loadConfig (B : Builtins) (host : Host) (projectRoot : String) (env : Env) :
    Except JsError Config := do
  let base ← loadedConfig B host projectRoot env
  finalConfig B base env

/-! ## Debug output (lines 203-225) -/

/-- The two `debug` instances: `actual:config` and `actual-sensitive:config`. -/
inductive Channel where
  | debug
  | debugSensitive
  deriving DecidableEq, Repr

/-- One call of a `debug` instance. -/
structure LogEntry where
  channel : Channel
  message : String
  deriving DecidableEq, Repr

/-- The property `length` of a string: its number of UTF-16 code units. -/
def jsLength (s : String) : Nat :=
  (s.data.map (fun c => if c.toNat < 0x10000 then 1 else 2)).sum

/-- The expression `'*'.repeat(n)`. -/
def stars (n : Nat) : String :=
  String.mk (List.replicate n '*')

/-- The calls of lines 212-217, made when `finalConfig.https` is present. -/
def httpsLog (https : Option Https) : List LogEntry :=
  match https with
  | some h =>
    [ ⟨.debug, "using https key: " ++ stars (jsLength h.key)⟩,
      ⟨.debugSensitive, "using https key " ++ h.key⟩,
      ⟨.debug, "using https cert: " ++ stars (jsLength h.cert)⟩,
      ⟨.debugSensitive, "using https cert " ++ h.cert⟩ ]
  | none => []

/-- The calls of lines 219-225, made when `finalConfig.upload` is present. -/
def uploadLog (numberToString : JsNumber → String) (upload : Option Upload) : List LogEntry :=
  match upload with
  | some u =>
    [ ⟨.debug, "using file sync limit " ++ numberToString u.fileSizeSyncLimitMB ++ "mb"⟩,
      ⟨.debug, "using sync encrypted file limit "
        ++ numberToString u.syncEncryptedFileSizeLimitMB ++ "mb"⟩,
      ⟨.debug, "using file limit " ++ numberToString u.fileSizeLimitMB ++ "mb"⟩ ]
  | none => []

/-- The calls of lines 203-225 in order.  `numberToString` is the conversion of
a number inside a template literal. -/
def debugLog (numberToString : JsNumber → String) (finalConfig : Config) : List LogEntry :=
  [ ⟨.debug, "using port " ++ numberToString finalConfig.port⟩,
    ⟨.debug, "using hostname " ++ finalConfig.hostname⟩,
    ⟨.debug, "using data directory " ++ finalConfig.dataDir⟩,
    ⟨.debug, "using server files directory " ++ finalConfig.serverFiles⟩,
    ⟨.debug, "using user files directory " ++ finalConfig.userFiles⟩,
    ⟨.debug, "using web root directory " ++ finalConfig.webRoot⟩,
    ⟨.debug, "using login method " ++ finalConfig.loginMethod⟩,
    ⟨.debug, "using trusted proxies " ++ ", ".intercalate finalConfig.trustedProxies⟩ ]
    ++ httpsLog finalConfig.https ++ uploadLog numberToString finalConfig.upload

/-- The messages written to one channel, in order. -/
def messagesOn (channel : Channel) (log : List LogEntry) : List String :=
  (log.filter (fun entry => decide (entry.channel = channel))).map LogEntry.message

/-! ## Notions used to state the properties -/

/-- The environment `env` with the variable `name` bound to `value`
(`none` removes it). -/
def Env.assign (env : Env) (name : String) (value : Option String) : Env :=
  fun other => if other = name then value else env other

/-- Two numbers that the operator `||` cannot tell apart: equal, or both falsy. -/
def falsyAlike (x y : JsNumber) : Prop :=
  x = y ∨ (x.truthy = false ∧ y.truthy = false)

/-- The invariant of the `https` sub-object: key and certificate are not empty. -/
def Https.complete (h : Https) : Prop :=
  h.key ≠ "" ∧ h.cert ≠ ""

/-- A string value that is present and not empty. -/
def presentNonEmpty (v : Option String) : Prop :=
  ∃ s, v = some s ∧ s ≠ ""

/-- The invariant of the `openId` sub-object: a structured issuer has its
three endpoints present and not empty. -/
def OpenId.complete (o : OpenId) : Prop :=
  ∀ e, o.issuer = .endpoints e →
    presentNonEmpty e.authorization_endpoint ∧ presentNonEmpty e.token_endpoint ∧
      presentNonEmpty e.userinfo_endpoint

/-- The invariant of a configuration: `https` and `openId`, when present, are complete. -/
def Config.invariant (c : Config) : Prop :=
  (∀ h, c.https = some h → h.complete) ∧ (∀ o, c.openId = some o → o.complete)

/-- A host whose only file is `/app/config.json`, containing a `dataDir` key,
and which has no directory `/data`. -/
def sampleHost : Host where
  existsSync := fun path => decide (path = "/app/config.json")
  readFileSync := fun path =>
    if path = "/app/config.json" then .ok "\x7b\"dataDir\": \"/custom\"\x7d"
    else .error (.error ("ENOENT: no such file or directory, open " ++ path))
  jsonParse := fun text =>
    if text = "\x7b\"dataDir\": \"/custom\"\x7d" then
      .ok { FileConfig.empty with dataDir := some "/custom" }
    else .error (.error "Unexpected token in JSON")

/-! ## Supporting lemmas -/

theorem JsNumber.or_or_self (x c : JsNumber) : x.or (x.or c) = x.or c := by
  unfold JsNumber.or
  by_cases h : x.truthy = true <;> simp [h]

theorem strOr_strOr (v : Option String) (d : String) : strOr v (strOr v d) = strOr v d := by
  unfold strOr
  cases truthy v <;> rfl

theorem finalConfig_of_rules (B : Builtins) (config : Config) (env : Env) {m : Bool}
    {u : Option Upload} {o : Option OpenId}
    (hm : finalConfig_multiuser B config env = .ok m)
    (hu : finalConfig_upload B config env = .ok u)
    (ho : finalConfig_openId config env = .ok o) :
    finalConfig B config env = .ok (assemble B config env m u o) := by
  simp [finalConfig, hm, hu, ho, bind, Except.bind, pure, Except.pure, assemble]

theorem rules_of_finalConfig (B : Builtins) (config : Config) (env : Env) {r : Config}
    (h : finalConfig B config env = .ok r) :
    ∃ m u o, finalConfig_multiuser B config env = .ok m ∧
      finalConfig_upload B config env = .ok u ∧
      finalConfig_openId config env = .ok o ∧ r = assemble B config env m u o := by
  cases hm : finalConfig_multiuser B config env with
  | error e => simp [finalConfig, hm, bind, Except.bind] at h
  | ok m =>
    cases hu : finalConfig_upload B config env with
    | error e => simp [finalConfig, hm, hu, bind, Except.bind] at h
    | ok u =>
      cases ho : finalConfig_openId config env with
      | error e => simp [finalConfig, hm, hu, ho, bind, Except.bind] at h
      | ok o =>
        rw [finalConfig_of_rules B config env hm hu ho] at h
        exact ⟨m, u, o, rfl, rfl, rfl, (Except.ok.inj h).symm⟩

theorem finalConfig_multiuser_congr (B : Builtins) (c d : Config) (env : Env) {m : Bool}
    (hd : d.multiuser = m) (h : finalConfig_multiuser B c env = .ok m) :
    finalConfig_multiuser B d env = .ok m := by
  unfold finalConfig_multiuser at h ⊢
  cases ht : truthy (env "AUTUMN_MULTIUSER") with
  | none => simp [hd]
  | some s => simpa [ht] using h

theorem orUploadProperty_again (x : JsNumber) (base : Option Upload) (property : String)
    (get : Upload → JsNumber) (u : Upload) {y : JsNumber}
    (hy : get u = y) (h : orUploadProperty x base property get = .ok y) :
    orUploadProperty x (some u) property get = .ok y := by
  unfold orUploadProperty at h ⊢
  by_cases hx : x.truthy = true
  · simpa [hx] using h
  · simp [hx, hy]

theorem finalConfig_upload_congr (B : Builtins) (c d : Config) (env : Env) {u : Option Upload}
    (hd : d.upload = u) (h : finalConfig_upload B c env = .ok u) :
    finalConfig_upload B d env = .ok u := by
  unfold finalConfig_upload at h ⊢
  simp only [] at h ⊢
  split at h
  · rename_i htrig
    rw [if_pos htrig]
    cases h1 : orUploadProperty ((B.toNumber (env "AUTUMN_UPLOAD_FILE_SYNC_SIZE_LIMIT_MB")).or
        (B.toNumber (env "AUTUMN_UPLOAD_FILE_SIZE_LIMIT_MB"))) c.upload
        "fileSizeSyncLimitMB" Upload.fileSizeSyncLimitMB with
    | error e => simp [h1, bind, Except.bind] at h
    | ok x1 =>
      cases h2 : orUploadProperty
          ((B.toNumber (env "AUTUMN_UPLOAD_SYNC_ENCRYPTED_FILE_SYNC_SIZE_LIMIT_MB")).or
          (B.toNumber (env "AUTUMN_UPLOAD_FILE_SIZE_LIMIT_MB"))) c.upload
          "syncEncryptedFileSizeLimitMB" Upload.syncEncryptedFileSizeLimitMB with
      | error e => simp [h1, h2, bind, Except.bind] at h
      | ok x2 =>
        cases h3 : orUploadProperty (B.toNumber (env "AUTUMN_UPLOAD_FILE_SIZE_LIMIT_MB"))
            c.upload "fileSizeLimitMB" Upload.fileSizeLimitMB with
        | error e => simp [h1, h2, h3, bind, Except.bind] at h
        | ok x3 =>
          simp [h1, h2, h3, bind, Except.bind, pure, Except.pure] at h
          subst h
          rw [hd]
          rw [orUploadProperty_again _ _ _ _ ⟨x1, x2, x3⟩ rfl h1,
            orUploadProperty_again _ _ _ _ ⟨x1, x2, x3⟩ rfl h2,
            orUploadProperty_again _ _ _ _ ⟨x1, x2, x3⟩ rfl h3]
          rfl
  · rename_i htrig
    rw [if_neg htrig]
    simp [hd]

theorem finalConfig_openId_congr (c d : Config) (env : Env) {o : Option OpenId}
    (hd : d.openId = o) (h : finalConfig_openId c env = .ok o) :
    finalConfig_openId d env = .ok o := by
  unfold finalConfig_openId at h ⊢
  split at h
  · rename_i htrig
    rw [if_pos htrig]
    simp [hd]
  · rename_i htrig
    rw [if_neg htrig]
    cases hi : openIdIssuer env with
    | error e => simp [hi, bind, Except.bind] at h
    | ok i =>
      simp [hi, bind, Except.bind, pure, Except.pure] at h
      subst h
      simp only [hd, bind, Except.bind, pure, Except.pure]
      congr 3
      all_goals
        cases env _ <;> simp [Option.orElse]

theorem finalConfig_https_again (c : Config) (env : Env) (d : Config)
    (hd : d.https = finalConfig_https c env) :
    finalConfig_https d env = finalConfig_https c env := by
  unfold finalConfig_https at hd ⊢
  split
  · rename_i k v hk hv
    simp only [hk, hv] at hd ⊢
    cases hc : c.https with
    | none => simp [hc] at hd ⊢; simp [hd]
    | some h => simp [hc] at hd ⊢; simp [hd]
  · rename_i hno
    split at hd
    · rename_i k v hk hv
      exact absurd hv (hno k v hk)
    · exact hd

/-- Idempotence on success: when the override resolver returns `r` for a base
and an environment, it returns `r` again for the base `r` and the same
environment, equal in every field (compound fields included). -/
theorem finalConfig_idempotent (B : Builtins) (config : Config) (env : Env) {r : Config}
    (h : finalConfig B config env = .ok r) : finalConfig B r env = .ok r := by
  obtain ⟨m, u, o, hm, hu, ho, rfl⟩ := rules_of_finalConfig B config env h
  have hm2 := finalConfig_multiuser_congr B config (assemble B config env m u o) env rfl hm
  have hu2 := finalConfig_upload_congr B config (assemble B config env m u o) env rfl hu
  have ho2 := finalConfig_openId_congr config (assemble B config env m u o) env rfl ho
  rw [finalConfig_of_rules B _ env hm2 hu2 ho2]
  congr 1
  have hh := finalConfig_https_again config env (assemble B config env m u o) rfl
  have hl : finalConfig_loginMethod B (assemble B config env m u o) env
      = finalConfig_loginMethod B config env := by
    simp only [finalConfig_loginMethod, assemble]
    cases truthy (env "AUTUMN_LOGIN_METHOD") <;> rfl
  have ht : finalConfig_trustedProxies (assemble B config env m u o) env
      = finalConfig_trustedProxies config env := by
    simp only [finalConfig_trustedProxies, assemble]
    cases truthy (env "AUTUMN_TRUSTED_PROXIES") <;> rfl
  have hp : finalConfig_port B (assemble B config env m u o) env
      = finalConfig_port B config env := by
    simp only [finalConfig_port, assemble]
    exact JsNumber.or_or_self _ _
  rw [assemble, hh, hl, ht, hp]
  simp [assemble, strOr_strOr]

theorem finalConfig_idempotent_witness :
    finalConfig refBuiltins sampleConfig (Env.ofList [("AUTUMN_PORT", "8080")])
        = .ok { sampleConfig with port := .finite 8080 } ∧
      finalConfig refBuiltins { sampleConfig with port := .finite 8080 }
        (Env.ofList [("AUTUMN_PORT", "8080")])
        = .ok { sampleConfig with port := .finite 8080 } :=
  ⟨rfl, finalConfig_idempotent refBuiltins sampleConfig (Env.ofList [("AUTUMN_PORT", "8080")]) rfl⟩

/-- C1 (failure half): whether the override resolver fails is meant to depend
on the environment only, but with the single variable
`AUTUMN_UPLOAD_FILE_SYNC_SIZE_LIMIT_MB=5` it throws a `TypeError` for the base
without an `upload` object and succeeds for the base with one. -/
theorem finalConfig_failure_depends_on_base :
    finalConfig refBuiltins { sampleConfig with upload := none }
        (Env.ofList [("AUTUMN_UPLOAD_FILE_SYNC_SIZE_LIMIT_MB", "5")])
        = .error (.typeError "syncEncryptedFileSizeLimitMB") ∧
      finalConfig refBuiltins sampleConfig
        (Env.ofList [("AUTUMN_UPLOAD_FILE_SYNC_SIZE_LIMIT_MB", "5")])
        = .ok { sampleConfig with upload := some ⟨.finite 5, .finite 50, .finite 20⟩ } :=
  ⟨rfl, rfl⟩

/-! ## HTTPS credentials (lines 127-134) -/

/-- C2 as stated fails: with neither HTTPS variable set, a base that already
has an `https` object keeps it, so the resolved configuration does have an
`https` field. -/
theorem https_present_without_variables :
    truthy ((Env.ofList []) "AUTUMN_HTTPS_KEY") = none ∧
      truthy ((Env.ofList []) "AUTUMN_HTTPS_CERT") = none ∧
      finalConfig refBuiltins { sampleConfig with https := some ⟨"FILE-KEY", "FILE-CERT"⟩ }
        (Env.ofList [])
        = .ok { sampleConfig with https := some ⟨"FILE-KEY", "FILE-CERT"⟩ } :=
  ⟨rfl, rfl, rfl⟩

/-- C2 amended: when `AUTUMN_HTTPS_KEY` and `AUTUMN_HTTPS_CERT` are not both
set to non-empty strings, the `https` rule returns the `https` of the base
unchanged, and so does every successful resolution; in particular it is absent
whenever the base has none. -/
theorem https_unchanged_unless_both_set (B : Builtins) (config : Config) (env : Env)
    (h : truthy (env "AUTUMN_HTTPS_KEY") = none ∨ truthy (env "AUTUMN_HTTPS_CERT") = none) :
    finalConfig_https config env = config.https ∧
      (∀ r, finalConfig B config env = .ok r → r.https = config.https) ∧
      (config.https = none → finalConfig_https config env = none) := by
  have key : finalConfig_https config env = config.https := by
    unfold finalConfig_https
    split
    · rename_i k c hk hc
      rcases h with h | h
      · rw [h] at hk; cases hk
      · rw [h] at hc; cases hc
    · rfl
  refine ⟨key, ?_, fun hn => by rw [key, hn]⟩
  intro r hr
  obtain ⟨m, u, o, -, -, -, rfl⟩ := rules_of_finalConfig B config env hr
  exact key

theorem https_unchanged_unless_both_set_witness :
    finalConfig_https sampleConfig (Env.ofList [("AUTUMN_HTTPS_KEY", "KEY")]) = none :=
  (https_unchanged_unless_both_set refBuiltins sampleConfig
    (Env.ofList [("AUTUMN_HTTPS_KEY", "KEY")]) (Or.inr rfl)).2.2 rfl

/-- C3 at the failing input: with both HTTPS variables set and a base whose
`https` came from the file, the resolved key and certificate are the ones of
the file, not the unescaped values of the variables; the same variables over a
base without `https` give the unescaped values. -/
theorem https_file_layer_wins :
    finalConfig refBuiltins { sampleConfig with https := some ⟨"FILE-KEY", "FILE-CERT"⟩ }
        (Env.ofList [("AUTUMN_HTTPS_KEY", "ENV\\nKEY"), ("AUTUMN_HTTPS_CERT", "ENV\\nCERT")])
        = .ok { sampleConfig with https := some ⟨"FILE-KEY", "FILE-CERT"⟩ } ∧
      finalConfig refBuiltins sampleConfig
        (Env.ofList [("AUTUMN_HTTPS_KEY", "ENV\\nKEY"), ("AUTUMN_HTTPS_CERT", "ENV\\nCERT")])
        = .ok { sampleConfig with https := some ⟨"ENV\nKEY", "ENV\nCERT"⟩ } :=
  ⟨rfl, rfl⟩

/-- With both HTTPS variables set and no `https` in the base, the resolved key
and certificate are the values of the variables with every backslash-`n` pair
replaced by a line feed. -/
theorem https_from_variables (config : Config) (env : Env) (k c : String)
    (hk : truthy (env "AUTUMN_HTTPS_KEY") = some k)
    (hc : truthy (env "AUTUMN_HTTPS_CERT") = some c) (hbase : config.https = none) :
    finalConfig_https config env = some ⟨unescapeNewlines k, unescapeNewlines c⟩ := by
  simp [finalConfig_https, hk, hc, hbase]

/-- With both HTTPS variables set and an `https` object in the base, the
resolved key and certificate are those of the base. -/
theorem https_from_base (config : Config) (env : Env) (k c : String) (h : Https)
    (hk : truthy (env "AUTUMN_HTTPS_KEY") = some k)
    (hc : truthy (env "AUTUMN_HTTPS_CERT") = some c) (hbase : config.https = some h) :
    finalConfig_https config env = some h := by
  simp [finalConfig_https, hk, hc, hbase]

/-! ## OpenID descriptor (lines 153-198) -/

/-- C4 as stated fails: with only the token endpoint set (one of the three,
no discovery URL) the resolver does not fail; it returns the base unchanged. -/
theorem openId_token_only_succeeds :
    truthy ((Env.ofList [("AUTUMN_OPENID_TOKEN_ENDPOINT", "https://idp.example/token")])
        "AUTUMN_OPENID_DISCOVERY_URL") = none ∧
      finalConfig refBuiltins sampleConfig
        (Env.ofList [("AUTUMN_OPENID_TOKEN_ENDPOINT", "https://idp.example/token")])
        = .ok sampleConfig :=
  ⟨rfl, rfl⟩

/-- C4 amended: with no discovery URL, the `openId` rule is entered only when
the authorization endpoint is set.  If it is set and the token or the userinfo
endpoint is missing, the rule throws `Missing required OpenID configuration: `
followed by exactly the missing names among `token_endpoint` and
`userinfo_endpoint`, joined by `, `; the whole resolution then fails, with this
very error whenever the earlier `multiuser` and `upload` rules do not throw.
If the authorization endpoint is not set, the rule does not fail and returns
the `openId` of the base, whatever the other two variables are. -/
theorem openId_incomplete_endpoints (B : Builtins) (config : Config) (env : Env)
    (hD : truthy (env "AUTUMN_OPENID_DISCOVERY_URL") = none) :
    (truthy (env "AUTUMN_OPENID_AUTHORIZATION_ENDPOINT") ≠ none →
      (truthy (env "AUTUMN_OPENID_TOKEN_ENDPOINT") = none ∨
        truthy (env "AUTUMN_OPENID_USERINFO_ENDPOINT") = none) →
      let missing :=
        (if truthy (env "AUTUMN_OPENID_TOKEN_ENDPOINT") = none then ["token_endpoint"] else [])
          ++ (if truthy (env "AUTUMN_OPENID_USERINFO_ENDPOINT") = none
                then ["userinfo_endpoint"] else [])
      let e := JsError.error
        ("Missing required OpenID configuration: " ++ ", ".intercalate missing)
      finalConfig_openId config env = .error e ∧
        (∃ e', finalConfig B config env = .error e') ∧
        (∀ m u, finalConfig_multiuser B config env = .ok m →
          finalConfig_upload B config env = .ok u → finalConfig B config env = .error e)) ∧
    (truthy (env "AUTUMN_OPENID_AUTHORIZATION_ENDPOINT") = none →
      finalConfig_openId config env = .ok config.openId) := by
  constructor
  · intro hA hTU
    have hrule : finalConfig_openId config env = .error (JsError.error
        ("Missing required OpenID configuration: " ++ ", ".intercalate
          ((if truthy (env "AUTUMN_OPENID_TOKEN_ENDPOINT") = none then ["token_endpoint"] else [])
            ++ (if truthy (env "AUTUMN_OPENID_USERINFO_ENDPOINT") = none
                  then ["userinfo_endpoint"] else [])))) := by
      cases hA2 : truthy (env "AUTUMN_OPENID_AUTHORIZATION_ENDPOINT") with
      | none => exact absurd hA2 hA
      | some a =>
        cases hT : truthy (env "AUTUMN_OPENID_TOKEN_ENDPOINT") <;>
          cases hU : truthy (env "AUTUMN_OPENID_USERINFO_ENDPOINT") <;>
          simp [finalConfig_openId, openIdIssuer, missingEndpoints, hD, hA2, hT, hU,
            bind, Except.bind] at hTU ⊢
    have hall : ∀ m u, finalConfig_multiuser B config env = .ok m →
        finalConfig_upload B config env = .ok u →
        finalConfig B config env = .error (JsError.error
          ("Missing required OpenID configuration: " ++ ", ".intercalate
            ((if truthy (env "AUTUMN_OPENID_TOKEN_ENDPOINT") = none
                then ["token_endpoint"] else [])
              ++ (if truthy (env "AUTUMN_OPENID_USERINFO_ENDPOINT") = none
                    then ["userinfo_endpoint"] else [])))) := by
      intro m u hm hu
      simp [finalConfig, hm, hu, hrule, bind, Except.bind]
    refine ⟨hrule, ?_, hall⟩
    cases hm : finalConfig_multiuser B config env with
    | error e1 => exact ⟨e1, by simp [finalConfig, hm, bind, Except.bind]⟩
    | ok m =>
      cases hu : finalConfig_upload B config env with
      | error e2 => exact ⟨e2, by simp [finalConfig, hm, hu, bind, Except.bind]⟩
      | ok u => exact ⟨_, hall m u hm hu⟩
  · intro hA
    simp [finalConfig_openId, hD, hA]

theorem openId_incomplete_endpoints_witness :
    finalConfig_openId sampleConfig
        (Env.ofList [("AUTUMN_OPENID_AUTHORIZATION_ENDPOINT", "https://idp.example/auth"),
          ("AUTUMN_OPENID_USERINFO_ENDPOINT", "https://idp.example/me")])
      = .error (.error "Missing required OpenID configuration: token_endpoint") :=
  ((openId_incomplete_endpoints refBuiltins sampleConfig
    (Env.ofList [("AUTUMN_OPENID_AUTHORIZATION_ENDPOINT", "https://idp.example/auth"),
      ("AUTUMN_OPENID_USERINFO_ENDPOINT", "https://idp.example/me")]) rfl).1
    (by decide) (Or.inl rfl)).1

/-! ## The `multiuser` flag (lines 110-118) -/

/-- C6: when `AUTUMN_MULTIUSER` is a non-empty string `s`, the `multiuser` rule
yields `true` exactly when the lower-case form of `s` is `"true"`, yields
`false` exactly when it is `"false"`, and for every other `s` it throws the
validation error, which is then the outcome of the whole resolution; every
successful resolution carries the parsed flag.  When the variable is unset the
rule yields the value of the base. -/
theorem multiuser_parsing (B : Builtins) (config : Config) (env : Env) :
    (∀ s, env "AUTUMN_MULTIUSER" = some s → s ≠ "" →
      (finalConfig_multiuser B config env = .ok true ↔ B.toLowerCase s = "true") ∧
      (finalConfig_multiuser B config env = .ok false ↔ B.toLowerCase s = "false") ∧
      (B.toLowerCase s ≠ "true" → B.toLowerCase s ≠ "false" →
        finalConfig_multiuser B config env
            = .error (.error "AUTUMN_MULTIUSER must be either \"true\" or \"false\"") ∧
          finalConfig B config env
            = .error (.error "AUTUMN_MULTIUSER must be either \"true\" or \"false\"")) ∧
      (∀ r, finalConfig B config env = .ok r →
        (r.multiuser = true ↔ B.toLowerCase s = "true") ∧
        (r.multiuser = false ↔ B.toLowerCase s = "false"))) ∧
    (env "AUTUMN_MULTIUSER" = none →
      finalConfig_multiuser B config env = .ok config.multiuser ∧
      ∀ r, finalConfig B config env = .ok r → r.multiuser = config.multiuser) := by
  have hne : ("true" : String) ≠ "false" := by decide
  constructor
  · intro s hs hs0
    have ht : truthy (env "AUTUMN_MULTIUSER") = some s := by simp [truthy, hs, hs0]
    by_cases h1 : B.toLowerCase s = "true"
    · have hrule : finalConfig_multiuser B config env = .ok true := by
        simp [finalConfig_multiuser, ht, h1]
      refine ⟨by simp [hrule, h1], by simp [hrule, h1, hne], fun h => absurd h1 h, ?_⟩
      intro r hr
      obtain ⟨m, u, o, hm, -, -, rfl⟩ := rules_of_finalConfig B config env hr
      rw [hrule] at hm
      cases hm
      simp [assemble, h1, hne]
    · by_cases h2 : B.toLowerCase s = "false"
      · have hrule : finalConfig_multiuser B config env = .ok false := by
          simp [finalConfig_multiuser, ht, h2, hne.symm]
        refine ⟨by simp [hrule, h2, hne.symm], by simp [hrule, h2], fun _ h => absurd h2 h, ?_⟩
        intro r hr
        obtain ⟨m, u, o, hm, -, -, rfl⟩ := rules_of_finalConfig B config env hr
        rw [hrule] at hm
        cases hm
        simp [assemble, h2, hne.symm]
      · have hrule : finalConfig_multiuser B config env
            = .error (.error "AUTUMN_MULTIUSER must be either \"true\" or \"false\"") := by
          simp [finalConfig_multiuser, ht, h1, h2]
        have hall : finalConfig B config env
            = .error (.error "AUTUMN_MULTIUSER must be either \"true\" or \"false\"") := by
          simp [finalConfig, hrule, bind, Except.bind]
        refine ⟨by simp [hrule, h1], by simp [hrule, h2], fun _ _ => ⟨hrule, hall⟩, ?_⟩
        intro r hr
        rw [hall] at hr
        cases hr
  · intro hs
    have ht : truthy (env "AUTUMN_MULTIUSER") = none := by simp [truthy, hs]
    have hrule : finalConfig_multiuser B config env = .ok config.multiuser := by
      simp [finalConfig_multiuser, ht]
    refine ⟨hrule, ?_⟩
    intro r hr
    obtain ⟨m, u, o, hm, -, -, rfl⟩ := rules_of_finalConfig B config env hr
    rw [hrule] at hm
    cases hm
    rfl

theorem multiuser_parsing_witness :
    finalConfig_multiuser refBuiltins sampleConfig (Env.ofList [("AUTUMN_MULTIUSER", "TRUE")])
        = .ok true ∧
      finalConfig refBuiltins sampleConfig (Env.ofList [("AUTUMN_MULTIUSER", "yes")])
        = .error (.error "AUTUMN_MULTIUSER must be either \"true\" or \"false\"") :=
  ⟨((multiuser_parsing refBuiltins sampleConfig (Env.ofList [("AUTUMN_MULTIUSER", "TRUE")])).1
      "TRUE" rfl (by decide)).1.mpr rfl,
    (((multiuser_parsing refBuiltins sampleConfig (Env.ofList [("AUTUMN_MULTIUSER", "yes")])).1
      "yes" rfl (by decide)).2.2.1 (by decide) (by decide)).2⟩

/-! ## Test mode (lines 86-93 and 124-125) -/

/-- C7 as stated fails: in test mode with `AUTUMN_SERVER_FILES` set, the
resolved `serverFiles` is the value of the variable, not the pinned test
directory. -/
theorem test_mode_serverFiles_overridden :
    (config refBuiltins (defaultConfig refBuiltins "/app") "/app" "/data" FileConfig.empty
        (Env.ofList [("NODE_ENV", "test"), ("AUTUMN_SERVER_FILES", "/srv/files")])).serverFiles
        = "/app/test-server-files" ∧
      (finalConfig refBuiltins
        (config refBuiltins (defaultConfig refBuiltins "/app") "/app" "/data" FileConfig.empty
          (Env.ofList [("NODE_ENV", "test"), ("AUTUMN_SERVER_FILES", "/srv/files")]))
        (Env.ofList [("NODE_ENV", "test"), ("AUTUMN_SERVER_FILES", "/srv/files")])).map
          Config.serverFiles
        = .ok "/srv/files" :=
  ⟨rfl, rfl⟩

/-- C7 amended: in test mode the base configuration has `mode = "test"`,
`dataDir = projectRoot` and the two test directories, whatever the defaults,
the default data directory and the file configuration are.  Every successful
resolution keeps `mode` and `dataDir`; its `serverFiles` is the value of
`AUTUMN_SERVER_FILES` when that is set and not empty and the pinned directory
otherwise, and likewise `userFiles` with `AUTUMN_USER_FILES`. -/
theorem test_mode_pinning (B : Builtins) (defaults : DefaultConfig)
    (projectRoot defaultDataDir : String) (userConfig : FileConfig) (env : Env)
    (htest : env "NODE_ENV" = some "test") :
    let base := config B defaults projectRoot defaultDataDir userConfig env
    (base.mode = "test" ∧ base.dataDir = projectRoot ∧
      base.serverFiles = B.pathJoin [projectRoot, "test-server-files"] ∧
      base.userFiles = B.pathJoin [projectRoot, "test-user-files"]) ∧
    ∀ r, finalConfig B base env = .ok r →
      r.mode = "test" ∧ r.dataDir = projectRoot ∧
      (truthy (env "AUTUMN_SERVER_FILES") = none →
        r.serverFiles = B.pathJoin [projectRoot, "test-server-files"]) ∧
      (∀ s, truthy (env "AUTUMN_SERVER_FILES") = some s → r.serverFiles = s) ∧
      (truthy (env "AUTUMN_USER_FILES") = none →
        r.userFiles = B.pathJoin [projectRoot, "test-user-files"]) ∧
      (∀ s, truthy (env "AUTUMN_USER_FILES") = some s → r.userFiles = s) := by
  intro base
  have hb : base.mode = "test" ∧ base.dataDir = projectRoot ∧
      base.serverFiles = B.pathJoin [projectRoot, "test-server-files"] ∧
      base.userFiles = B.pathJoin [projectRoot, "test-user-files"] := by
    simp [base, config, htest]
  refine ⟨hb, ?_⟩
  intro r hr
  obtain ⟨m, u, o, -, -, -, rfl⟩ := rules_of_finalConfig B base env hr
  obtain ⟨h1, h2, h3, h4⟩ := hb
  refine ⟨h1, h2, ?_, ?_, ?_, ?_⟩
  · intro h; simp [assemble, strOr, h, h3]
  · intro s h; simp [assemble, strOr, h]
  · intro h; simp [assemble, strOr, h, h4]
  · intro s h; simp [assemble, strOr, h]

theorem test_mode_pinning_witness :
    (config refBuiltins (defaultConfig refBuiltins "/app") "/app" "/data"
        { FileConfig.empty with dataDir := some "/elsewhere" }
        (Env.ofList [("NODE_ENV", "test")])).dataDir = "/app" :=
  (test_mode_pinning refBuiltins (defaultConfig refBuiltins "/app") "/app" "/data"
    { FileConfig.empty with dataDir := some "/elsewhere" }
    (Env.ofList [("NODE_ENV", "test")]) rfl).1.2.1

/-! ## Upload limits (lines 135-152) -/

/-- C8 as stated fails: `AUTUMN_UPLOAD_FILE_SYNC_SIZE_LIMIT_MB` is set (to
`"0"`), yet `fileSizeSyncLimitMB` is not its value but the value 20 of the
base, because a variable whose number is zero is skipped. -/
theorem upload_zero_is_skipped :
    finalConfig_upload refBuiltins sampleConfig
        (Env.ofList [("AUTUMN_UPLOAD_FILE_SYNC_SIZE_LIMIT_MB", "0")])
        = .ok (some ⟨.finite 20, .finite 50, .finite 20⟩) ∧
      refBuiltins.toNumber ((Env.ofList [("AUTUMN_UPLOAD_FILE_SYNC_SIZE_LIMIT_MB", "0")])
        "AUTUMN_UPLOAD_FILE_SYNC_SIZE_LIMIT_MB") = .finite 0 :=
  ⟨rfl, rfl⟩

/-- C8 amended: for a base that has an `upload` object and an environment in
which at least one of the three upload variables is set and not empty, each
limit is the number of its own variable when that number is truthy (neither
`NaN` nor zero), else the number of `AUTUMN_UPLOAD_FILE_SIZE_LIMIT_MB` when
that is truthy, else the value of the base.  In particular the combined
variable alone sets all three limits, and one specific variable alone changes
only its own limit and leaves the other two at the values of the base. -/
theorem upload_fallback_chain (B : Builtins) (config : Config) (env : Env) (base : Upload)
    (hbase : config.upload = some base)
    (htrigger : truthy (env "AUTUMN_UPLOAD_FILE_SYNC_SIZE_LIMIT_MB") ≠ none ∨
      truthy (env "AUTUMN_UPLOAD_SYNC_ENCRYPTED_FILE_SYNC_SIZE_LIMIT_MB") ≠ none ∨
      truthy (env "AUTUMN_UPLOAD_FILE_SIZE_LIMIT_MB") ≠ none) :
    let sync := B.toNumber (env "AUTUMN_UPLOAD_FILE_SYNC_SIZE_LIMIT_MB")
    let encrypted := B.toNumber (env "AUTUMN_UPLOAD_SYNC_ENCRYPTED_FILE_SYNC_SIZE_LIMIT_MB")
    let file := B.toNumber (env "AUTUMN_UPLOAD_FILE_SIZE_LIMIT_MB")
    let resolved : Upload :=
      { fileSizeSyncLimitMB :=
          if sync.truthy then sync else if file.truthy then file else base.fileSizeSyncLimitMB
        syncEncryptedFileSizeLimitMB :=
          if encrypted.truthy then encrypted
          else if file.truthy then file else base.syncEncryptedFileSizeLimitMB
        fileSizeLimitMB := if file.truthy then file else base.fileSizeLimitMB }
    finalConfig_upload B config env = .ok (some resolved) ∧
      (∀ r, finalConfig B config env = .ok r → r.upload = some resolved) ∧
      (env "AUTUMN_UPLOAD_FILE_SYNC_SIZE_LIMIT_MB" = none →
        env "AUTUMN_UPLOAD_SYNC_ENCRYPTED_FILE_SYNC_SIZE_LIMIT_MB" = none →
        file.truthy = true → resolved = ⟨file, file, file⟩) ∧
      (env "AUTUMN_UPLOAD_SYNC_ENCRYPTED_FILE_SYNC_SIZE_LIMIT_MB" = none →
        env "AUTUMN_UPLOAD_FILE_SIZE_LIMIT_MB" = none → sync.truthy = true →
        resolved = ⟨sync, base.syncEncryptedFileSizeLimitMB, base.fileSizeLimitMB⟩) ∧
      (env "AUTUMN_UPLOAD_FILE_SYNC_SIZE_LIMIT_MB" = none →
        env "AUTUMN_UPLOAD_FILE_SIZE_LIMIT_MB" = none → encrypted.truthy = true →
        resolved = ⟨base.fileSizeSyncLimitMB, encrypted, base.fileSizeLimitMB⟩) := by
  intro sync encrypted file resolved
  have htrigger2 : (truthy (env "AUTUMN_UPLOAD_FILE_SYNC_SIZE_LIMIT_MB")).isSome = true ∨
      (truthy (env "AUTUMN_UPLOAD_SYNC_ENCRYPTED_FILE_SYNC_SIZE_LIMIT_MB")).isSome = true ∨
      (truthy (env "AUTUMN_UPLOAD_FILE_SIZE_LIMIT_MB")).isSome = true := by
    simpa [Option.isSome_iff_ne_none] using htrigger
  have hrule : finalConfig_upload B config env = .ok (some resolved) := by
    unfold finalConfig_upload
    simp only []
    rw [if_pos htrigger2, hbase]
    simp only [orUploadProperty, JsNumber.or, bind, Except.bind, pure, Except.pure, resolved,
      sync, encrypted, file]
    by_cases h1 : (B.toNumber (env "AUTUMN_UPLOAD_FILE_SYNC_SIZE_LIMIT_MB")).truthy = true <;>
      by_cases h2 :
        (B.toNumber (env "AUTUMN_UPLOAD_SYNC_ENCRYPTED_FILE_SYNC_SIZE_LIMIT_MB")).truthy = true <;>
      by_cases h3 : (B.toNumber (env "AUTUMN_UPLOAD_FILE_SIZE_LIMIT_MB")).truthy = true <;>
      simp [h1, h2, h3]
  refine ⟨hrule, ?_, ?_, ?_, ?_⟩
  · intro r hr
    obtain ⟨m, u, o, -, hu, -, rfl⟩ := rules_of_finalConfig B config env hr
    rw [hrule] at hu
    exact (Except.ok.inj hu).symm
  · intro h1 h2 h3
    have e1 : sync.truthy = false := by simp [sync, h1, Builtins.toNumber, JsNumber.truthy]
    have e2 : encrypted.truthy = false := by
      simp [encrypted, h2, Builtins.toNumber, JsNumber.truthy]
    simp [resolved, e1, e2, h3]
  · intro h2 h3 h1
    have e2 : encrypted.truthy = false := by
      simp [encrypted, h2, Builtins.toNumber, JsNumber.truthy]
    have e3 : file.truthy = false := by simp [file, h3, Builtins.toNumber, JsNumber.truthy]
    simp [resolved, e2, e3, h1]
  · intro h1 h3 h2
    have e1 : sync.truthy = false := by simp [sync, h1, Builtins.toNumber, JsNumber.truthy]
    have e3 : file.truthy = false := by simp [file, h3, Builtins.toNumber, JsNumber.truthy]
    simp [resolved, e1, e3, h2]

theorem upload_fallback_chain_witness :
    finalConfig_upload refBuiltins sampleConfig
        (Env.ofList [("AUTUMN_UPLOAD_FILE_SIZE_LIMIT_MB", "30")])
      = .ok (some ⟨.finite 30, .finite 30, .finite 30⟩) :=
  (upload_fallback_chain refBuiltins sampleConfig
    (Env.ofList [("AUTUMN_UPLOAD_FILE_SIZE_LIMIT_MB", "30")])
    ⟨.finite 20, .finite 50, .finite 20⟩ rfl (Or.inr (Or.inr (by decide)))).1

/-! ## Port (line 122) -/

/-- C9 as stated fails: with `AUTUMN_PORT=0` and `PORT=8080`, both numeric
strings, the resolved port is 8080 and not the value 0 of `AUTUMN_PORT`. -/
theorem port_zero_is_skipped :
    (finalConfig refBuiltins sampleConfig
        (Env.ofList [("AUTUMN_PORT", "0"), ("PORT", "8080")])).map Config.port
        = .ok (.finite 8080) ∧
      refBuiltins.stringToNumber "0" = .finite 0 :=
  ⟨rfl, rfl⟩

/-- C9 amended: over the base built from the defaults with no file
configuration, the resolved port is the number of `AUTUMN_PORT` when that
number is truthy (neither `NaN` nor zero), whatever `PORT` is; otherwise the
number of `PORT` when that is truthy; otherwise 5006.  A variable that is
unset, does not parse as a number or parses as zero is skipped. -/
theorem port_resolution (B : Builtins) (projectRoot defaultDataDir : String) (env : Env) :
    let base := config B (defaultConfig B projectRoot) projectRoot defaultDataDir
      FileConfig.empty env
    let specific := B.toNumber (env "AUTUMN_PORT")
    let generic := B.toNumber (env "PORT")
    let resolved : JsNumber :=
      if specific.truthy then specific else if generic.truthy then generic else .finite 5006
    finalConfig_port B base env = resolved ∧
      (∀ r, finalConfig B base env = .ok r → r.port = resolved) ∧
      (env "AUTUMN_PORT" = none → env "PORT" = none → resolved = .finite 5006) := by
  intro base specific generic resolved
  have hport : base.port = .finite 5006 := by
    simp only [base, config, defaultConfig, FileConfig.empty]
    split <;> rfl
  have hrule : finalConfig_port B base env = resolved := by
    simp only [finalConfig_port, JsNumber.or, hport, resolved, specific, generic]
    by_cases h1 : (B.toNumber (env "AUTUMN_PORT")).truthy = true <;>
      by_cases h2 : (B.toNumber (env "PORT")).truthy = true <;> simp [h1, h2]
  refine ⟨hrule, ?_, ?_⟩
  · intro r hr
    obtain ⟨m, u, o, -, -, -, rfl⟩ := rules_of_finalConfig B base env hr
    exact hrule
  · intro h1 h2
    simp [resolved, specific, generic, h1, h2, Builtins.toNumber, JsNumber.truthy]

theorem port_resolution_witness :
    finalConfig_port refBuiltins
        (config refBuiltins (defaultConfig refBuiltins "/app") "/app" "/data" FileConfig.empty
          (Env.ofList [("AUTUMN_PORT", "3000"), ("PORT", "8080")]))
        (Env.ofList [("AUTUMN_PORT", "3000"), ("PORT", "8080")])
      = .finite 3000 :=
  (port_resolution refBuiltins "/app" "/data"
    (Env.ofList [("AUTUMN_PORT", "3000"), ("PORT", "8080")])).1

/-! ## Failures of the override resolver -/

theorem finalConfig_multiuser_error_iff (B : Builtins) (config : Config) (env : Env) :
    (∃ e, finalConfig_multiuser B config env = .error e) ↔
      ∃ s, truthy (env "AUTUMN_MULTIUSER") = some s ∧
        B.toLowerCase s ≠ "true" ∧ B.toLowerCase s ≠ "false" := by
  unfold finalConfig_multiuser
  cases ht : truthy (env "AUTUMN_MULTIUSER") with
  | none => simp
  | some s =>
    by_cases h1 : B.toLowerCase s = "true"
    · simp [h1]
    · by_cases h2 : B.toLowerCase s = "false"
      · simp [h2]
      · simp [h1, h2]

theorem finalConfig_upload_error_iff (B : Builtins) (config : Config) (env : Env) :
    (∃ e, finalConfig_upload B config env = .error e) ↔
      (truthy (env "AUTUMN_UPLOAD_FILE_SYNC_SIZE_LIMIT_MB") ≠ none ∨
        truthy (env "AUTUMN_UPLOAD_SYNC_ENCRYPTED_FILE_SYNC_SIZE_LIMIT_MB") ≠ none ∨
        truthy (env "AUTUMN_UPLOAD_FILE_SIZE_LIMIT_MB") ≠ none) ∧
      config.upload = none ∧
      (B.toNumber (env "AUTUMN_UPLOAD_FILE_SIZE_LIMIT_MB")).truthy = false := by
  unfold finalConfig_upload
  simp only [Option.isSome_iff_ne_none]
  split
  · rename_i htrig
    simp only [htrig, true_and]
    cases hup : config.upload with
    | some base =>
      simp only [orUploadProperty, JsNumber.or, bind, Except.bind, pure, Except.pure]
      by_cases h1 : (B.toNumber (env "AUTUMN_UPLOAD_FILE_SYNC_SIZE_LIMIT_MB")).truthy = true <;>
        by_cases h2 :
          (B.toNumber (env "AUTUMN_UPLOAD_SYNC_ENCRYPTED_FILE_SYNC_SIZE_LIMIT_MB")).truthy
            = true <;>
        by_cases h3 : (B.toNumber (env "AUTUMN_UPLOAD_FILE_SIZE_LIMIT_MB")).truthy = true <;>
        simp [h1, h2, h3]
    | none =>
      simp only [orUploadProperty, JsNumber.or, bind, Except.bind, pure, Except.pure]
      by_cases h1 : (B.toNumber (env "AUTUMN_UPLOAD_FILE_SYNC_SIZE_LIMIT_MB")).truthy = true <;>
        by_cases h2 :
          (B.toNumber (env "AUTUMN_UPLOAD_SYNC_ENCRYPTED_FILE_SYNC_SIZE_LIMIT_MB")).truthy
            = true <;>
        by_cases h3 : (B.toNumber (env "AUTUMN_UPLOAD_FILE_SIZE_LIMIT_MB")).truthy = true <;>
        simp [h1, h2, h3]
  · rename_i htrig
    simp [htrig]

theorem finalConfig_openId_error_iff (config : Config) (env : Env) :
    (∃ e, finalConfig_openId config env = .error e) ↔
      truthy (env "AUTUMN_OPENID_DISCOVERY_URL") = none ∧
      truthy (env "AUTUMN_OPENID_AUTHORIZATION_ENDPOINT") ≠ none ∧
      (truthy (env "AUTUMN_OPENID_TOKEN_ENDPOINT") = none ∨
        truthy (env "AUTUMN_OPENID_USERINFO_ENDPOINT") = none) := by
  cases hD : truthy (env "AUTUMN_OPENID_DISCOVERY_URL") <;>
    cases hA : truthy (env "AUTUMN_OPENID_AUTHORIZATION_ENDPOINT") <;>
    cases hT : truthy (env "AUTUMN_OPENID_TOKEN_ENDPOINT") <;>
    cases hU : truthy (env "AUTUMN_OPENID_USERINFO_ENDPOINT") <;>
    simp [finalConfig_openId, openIdIssuer, missingEndpoints, hD, hA, hT, hU,
      bind, Except.bind, pure, Except.pure]

/-- The override resolver throws exactly when one of its three throwing rules does. -/
theorem finalConfig_error_iff_rules (B : Builtins) (config : Config) (env : Env) :
    (∃ e, finalConfig B config env = .error e) ↔
      (∃ e, finalConfig_multiuser B config env = .error e) ∨
      (∃ e, finalConfig_upload B config env = .error e) ∨
      (∃ e, finalConfig_openId config env = .error e) := by
  cases hm : finalConfig_multiuser B config env with
  | error e1 => simp [finalConfig, hm, bind, Except.bind]
  | ok m =>
    cases hu : finalConfig_upload B config env with
    | error e2 => simp [finalConfig, hm, hu, bind, Except.bind]
    | ok u =>
      cases ho : finalConfig_openId config env with
      | error e3 => simp [finalConfig, hm, hu, ho, bind, Except.bind]
      | ok o => simp [finalConfig, hm, hu, ho, bind, Except.bind, pure, Except.pure]

/-- Complete description of the failures of the override resolver: it throws
exactly when (a) `AUTUMN_MULTIUSER` is a non-empty string whose lower-case
form is neither `"true"` nor `"false"`, or (b) no discovery URL is set, the
authorization endpoint is set and the token or userinfo endpoint is missing, or
(c) an upload variable is set, the base has no `upload` object and the number
of `AUTUMN_UPLOAD_FILE_SIZE_LIMIT_MB` is falsy. -/
theorem finalConfig_error_iff (B : Builtins) (config : Config) (env : Env) :
    (∃ e, finalConfig B config env = .error e) ↔
      (∃ s, truthy (env "AUTUMN_MULTIUSER") = some s ∧
        B.toLowerCase s ≠ "true" ∧ B.toLowerCase s ≠ "false") ∨
      ((truthy (env "AUTUMN_UPLOAD_FILE_SYNC_SIZE_LIMIT_MB") ≠ none ∨
          truthy (env "AUTUMN_UPLOAD_SYNC_ENCRYPTED_FILE_SYNC_SIZE_LIMIT_MB") ≠ none ∨
          truthy (env "AUTUMN_UPLOAD_FILE_SIZE_LIMIT_MB") ≠ none) ∧
        config.upload = none ∧
        (B.toNumber (env "AUTUMN_UPLOAD_FILE_SIZE_LIMIT_MB")).truthy = false) ∨
      (truthy (env "AUTUMN_OPENID_DISCOVERY_URL") = none ∧
        truthy (env "AUTUMN_OPENID_AUTHORIZATION_ENDPOINT") ≠ none ∧
        (truthy (env "AUTUMN_OPENID_TOKEN_ENDPOINT") = none ∨
          truthy (env "AUTUMN_OPENID_USERINFO_ENDPOINT") = none)) := by
  rw [finalConfig_error_iff_rules, finalConfig_multiuser_error_iff,
    finalConfig_upload_error_iff, finalConfig_openId_error_iff]

/-! ## OpenID explicit endpoints (lines 160-198) -/

/-- C5 as stated fails: with no discovery URL and the three endpoint variables
set, resolution does not succeed when `AUTUMN_MULTIUSER` is `yes`; the
`multiuser` rule, evaluated first, throws. -/
theorem explicit_endpoints_invalid_multiuser_throws :
    truthy ((Env.ofList [("AUTUMN_OPENID_AUTHORIZATION_ENDPOINT", "https://idp.example/auth"),
        ("AUTUMN_OPENID_TOKEN_ENDPOINT", "https://idp.example/token"),
        ("AUTUMN_OPENID_USERINFO_ENDPOINT", "https://idp.example/me"),
        ("AUTUMN_MULTIUSER", "yes")]) "AUTUMN_OPENID_DISCOVERY_URL") = none ∧
      finalConfig refBuiltins sampleConfig
        (Env.ofList [("AUTUMN_OPENID_AUTHORIZATION_ENDPOINT", "https://idp.example/auth"),
          ("AUTUMN_OPENID_TOKEN_ENDPOINT", "https://idp.example/token"),
          ("AUTUMN_OPENID_USERINFO_ENDPOINT", "https://idp.example/me"),
          ("AUTUMN_MULTIUSER", "yes")])
        = .error (.error "AUTUMN_MULTIUSER must be either \"true\" or \"false\"") :=
  ⟨rfl, rfl⟩

/-- C5 amended: with no discovery URL and the three endpoint variables all
non-empty, the `openId` rule succeeds and the issuer is the structured object
made of `name` (the value of `AUTUMN_OPENID_PROVIDER_NAME`) and the three
endpoints, each equal to the value of its variable.  The whole resolution
succeeds whenever the `multiuser` and `upload` rules do not throw, in
particular whenever `AUTUMN_MULTIUSER` is unset, empty or, in lower case,
`true` or `false`, and the base has an `upload` object; every successful
resolution carries that `openId`. -/
theorem openId_explicit_endpoints (B : Builtins) (config : Config) (env : Env) (a t u : String)
    (hD : truthy (env "AUTUMN_OPENID_DISCOVERY_URL") = none)
    (hA : env "AUTUMN_OPENID_AUTHORIZATION_ENDPOINT" = some a) (ha : a ≠ "")
    (hT : env "AUTUMN_OPENID_TOKEN_ENDPOINT" = some t) (ht : t ≠ "")
    (hU : env "AUTUMN_OPENID_USERINFO_ENDPOINT" = some u) (hu : u ≠ "") :
    let descriptor : OpenId :=
      { issuer := .endpoints
          { name := env "AUTUMN_OPENID_PROVIDER_NAME"
            authorization_endpoint := some a
            token_endpoint := some t
            userinfo_endpoint := some u }
        client_id := (env "AUTUMN_OPENID_CLIENT_ID").orElse
          (fun _ => config.openId.bind OpenId.client_id)
        client_secret := (env "AUTUMN_OPENID_CLIENT_SECRET").orElse
          (fun _ => config.openId.bind OpenId.client_secret)
        server_hostname := (env "AUTUMN_OPENID_SERVER_HOSTNAME").orElse
          (fun _ => config.openId.bind OpenId.server_hostname) }
    finalConfig_openId config env = .ok (some descriptor) ∧
      (∀ m up, finalConfig_multiuser B config env = .ok m →
        finalConfig_upload B config env = .ok up →
        ∃ r, finalConfig B config env = .ok r ∧ r.openId = some descriptor) ∧
      ((truthy (env "AUTUMN_MULTIUSER") = none ∨
          ∃ s, truthy (env "AUTUMN_MULTIUSER") = some s ∧
            (B.toLowerCase s = "true" ∨ B.toLowerCase s = "false")) →
        config.upload ≠ none →
        ∃ r, finalConfig B config env = .ok r ∧ r.openId = some descriptor) ∧
      (∀ r, finalConfig B config env = .ok r → r.openId = some descriptor) := by
  intro descriptor
  have hrule : finalConfig_openId config env = .ok (some descriptor) := by
    have hA2 : truthy (some a) = some a := by simp [truthy, ha]
    have hT2 : truthy (some t) = some t := by simp [truthy, ht]
    have hU2 : truthy (some u) = some u := by simp [truthy, hu]
    simp [finalConfig_openId, openIdIssuer, missingEndpoints, hD, hA, hT, hU, hA2, hT2, hU2,
      bind, Except.bind, pure, Except.pure, descriptor]
  have hall : ∀ m up, finalConfig_multiuser B config env = .ok m →
      finalConfig_upload B config env = .ok up →
      ∃ r, finalConfig B config env = .ok r ∧ r.openId = some descriptor := by
    intro m up hm hup
    exact ⟨_, finalConfig_of_rules B config env hm hup hrule, rfl⟩
  refine ⟨hrule, hall, ?_, ?_⟩
  · intro hvalid hupload
    cases hm : finalConfig_multiuser B config env with
    | error e =>
      exfalso
      obtain ⟨s, hs, h1, h2⟩ := (finalConfig_multiuser_error_iff B config env).mp ⟨e, hm⟩
      rcases hvalid with hnone | ⟨s2, hs2, h3⟩
      · rw [hnone] at hs
        cases hs
      · rw [hs2] at hs
        cases hs
        rcases h3 with h3 | h3
        · exact h1 h3
        · exact h2 h3
    | ok m =>
      cases hup : finalConfig_upload B config env with
      | error e =>
        exfalso
        exact hupload ((finalConfig_upload_error_iff B config env).mp ⟨e, hup⟩).2.1
      | ok up => exact hall m up hm hup
  · intro r hr
    obtain ⟨m, up, o, -, -, ho, rfl⟩ := rules_of_finalConfig B config env hr
    rw [hrule] at ho
    exact (Except.ok.inj ho).symm

theorem openId_explicit_endpoints_witness :
    finalConfig_openId sampleConfig
        (Env.ofList [("AUTUMN_OPENID_AUTHORIZATION_ENDPOINT", "https://idp.example/auth"),
          ("AUTUMN_OPENID_TOKEN_ENDPOINT", "https://idp.example/token"),
          ("AUTUMN_OPENID_USERINFO_ENDPOINT", "https://idp.example/me"),
          ("AUTUMN_OPENID_PROVIDER_NAME", "Example")])
      = .ok (some
          { issuer := .endpoints
              { name := some "Example"
                authorization_endpoint := some "https://idp.example/auth"
                token_endpoint := some "https://idp.example/token"
                userinfo_endpoint := some "https://idp.example/me" }
            client_id := none
            client_secret := none
            server_hostname := none }) :=
  (openId_explicit_endpoints refBuiltins sampleConfig
    (Env.ofList [("AUTUMN_OPENID_AUTHORIZATION_ENDPOINT", "https://idp.example/auth"),
      ("AUTUMN_OPENID_TOKEN_ENDPOINT", "https://idp.example/token"),
      ("AUTUMN_OPENID_USERINFO_ENDPOINT", "https://idp.example/me"),
      ("AUTUMN_OPENID_PROVIDER_NAME", "Example")])
    "https://idp.example/auth" "https://idp.example/token" "https://idp.example/me"
    rfl rfl (by decide) rfl (by decide) rfl (by decide)).1

/-! ## Absent `upload` in the base (lines 135-152) -/

/-- C10 at the failing input: the file configuration gives `upload` as `null`
and the only variable set is
`AUTUMN_UPLOAD_SYNC_ENCRYPTED_FILE_SYNC_SIZE_LIMIT_MB=100`.  The base has no
`upload`, no OpenID endpoint variable and no `AUTUMN_MULTIUSER` is set, yet the
override resolver throws a `TypeError` while reading
`config.upload.fileSizeSyncLimitMB`. -/
theorem finalConfig_throws_on_absent_upload :
    (config refBuiltins (defaultConfig refBuiltins "/app") "/app" "/data"
        { FileConfig.empty with upload := some none }
        (Env.ofList [("AUTUMN_UPLOAD_SYNC_ENCRYPTED_FILE_SYNC_SIZE_LIMIT_MB", "100")])).upload
        = none ∧
      ["AUTUMN_OPENID_DISCOVERY_URL", "AUTUMN_OPENID_AUTHORIZATION_ENDPOINT",
          "AUTUMN_OPENID_TOKEN_ENDPOINT", "AUTUMN_OPENID_USERINFO_ENDPOINT"].map
          (Env.ofList [("AUTUMN_UPLOAD_SYNC_ENCRYPTED_FILE_SYNC_SIZE_LIMIT_MB", "100")])
        = [none, none, none, none] ∧
      (Env.ofList [("AUTUMN_UPLOAD_SYNC_ENCRYPTED_FILE_SYNC_SIZE_LIMIT_MB", "100")])
        "AUTUMN_MULTIUSER" = none ∧
      finalConfig refBuiltins
        (config refBuiltins (defaultConfig refBuiltins "/app") "/app" "/data"
          { FileConfig.empty with upload := some none }
          (Env.ofList [("AUTUMN_UPLOAD_SYNC_ENCRYPTED_FILE_SYNC_SIZE_LIMIT_MB", "100")]))
        (Env.ofList [("AUTUMN_UPLOAD_SYNC_ENCRYPTED_FILE_SYNC_SIZE_LIMIT_MB", "100")])
        = .error (.typeError "fileSizeSyncLimitMB") :=
  ⟨rfl, rfl, rfl, rfl⟩

/-! ## Trusted proxies (lines 119-121) -/

theorem splitComma_ne_nil (cs : List Char) : splitComma cs ≠ [] := by
  cases cs with
  | nil => simp [splitComma]
  | cons c rest =>
    unfold splitComma
    split
    · simp
    · split <;> simp

theorem splitComma_length (cs : List Char) : (splitComma cs).length = cs.count ',' + 1 := by
  induction cs with
  | nil => simp [splitComma]
  | cons c rest ih =>
    unfold splitComma
    by_cases hc : c = ','
    · subst hc
      simp [ih]
    · rw [if_neg hc]
      have hc2 : (c == ',') = false := by simpa using hc
      cases hsp : splitComma rest with
      | nil => exact absurd hsp (splitComma_ne_nil rest)
      | cons piece pieces =>
        rw [hsp] at ih
        simp only [List.length_cons] at ih ⊢
        rw [List.count_cons, hc2]
        simpa using ih

theorem splitComma_join (cs : List Char) : List.intercalate [','] (splitComma cs) = cs := by
  induction cs with
  | nil => simp [splitComma, List.intercalate]
  | cons c rest ih =>
    unfold splitComma
    by_cases hc : c = ','
    · subst hc
      rw [if_pos rfl]
      cases hsp : splitComma rest with
      | nil => exact absurd hsp (splitComma_ne_nil rest)
      | cons piece pieces =>
        rw [hsp] at ih
        simp only [List.intercalate] at ih ⊢
        simp [List.intersperse, ih]
    · rw [if_neg hc]
      cases hsp : splitComma rest with
      | nil => exact absurd hsp (splitComma_ne_nil rest)
      | cons piece pieces =>
        rw [hsp] at ih
        simp only [List.intercalate] at ih ⊢
        cases pieces with
        | nil => simpa [List.intersperse] using ih
        | cons p2 ps => simpa [List.intersperse] using ih

theorem splitComma_no_comma (cs : List Char) : ∀ q ∈ splitComma cs, ',' ∉ q := by
  induction cs with
  | nil => simp [splitComma]
  | cons c rest ih =>
    unfold splitComma
    by_cases hc : c = ','
    · subst hc
      rw [if_pos rfl]
      intro q hq
      rcases List.mem_cons.mp hq with h | h
      · subst h; simp
      · exact ih q h
    · rw [if_neg hc]
      cases hsp : splitComma rest with
      | nil => exact absurd hsp (splitComma_ne_nil rest)
      | cons piece pieces =>
        rw [hsp] at ih
        intro q hq
        rcases List.mem_cons.mp hq with h | h
        · subst h
          have := ih piece (List.mem_cons_self _ _)
          simp only [List.mem_cons, not_or]
          exact ⟨fun e => hc e.symm, this⟩
        · exact ih q (List.mem_cons_of_mem _ h)

theorem head_dropWhile_not (p : Char → Bool) (cs : List Char) (c : Char)
    (h : (cs.dropWhile p).head? = some c) : p c = false := by
  induction cs with
  | nil => simp at h
  | cons d rest ih =>
    by_cases hd : p d = true
    · rw [List.dropWhile_cons_of_pos hd] at h
      exact ih h
    · rw [List.dropWhile_cons_of_neg hd] at h
      simp at h
      subst h
      simpa using hd

theorem getLast_dropWhile (p : Char → Bool) (cs : List Char) (c : Char)
    (h : (cs.dropWhile p).getLast? = some c) : cs.getLast? = some c := by
  induction cs with
  | nil => exact h
  | cons d rest ih =>
    by_cases hd : p d = true
    · rw [List.dropWhile_cons_of_pos hd] at h
      have h2 := ih h
      cases rest with
      | nil => simp at h2
      | cons e es => simpa [List.getLast?_cons_cons] using h2
    · rw [List.dropWhile_cons_of_neg hd] at h
      exact h

/-- What `trim` does: it removes a run of white space at each end and what is
left neither starts nor ends with white space. -/
theorem jsTrim_spec (cs : List Char) :
    ∃ before after, cs = before ++ jsTrim cs ++ after ∧
      (∀ c ∈ before, isJsSpace c = true) ∧ (∀ c ∈ after, isJsSpace c = true) ∧
      (∀ c, (jsTrim cs).head? = some c → isJsSpace c = false) ∧
      (∀ c, (jsTrim cs).getLast? = some c → isJsSpace c = false) := by
  refine ⟨cs.takeWhile isJsSpace,
    ((cs.dropWhile isJsSpace).reverse.takeWhile isJsSpace).reverse, ?_, ?_, ?_, ?_, ?_⟩
  · have h1 : cs = cs.takeWhile isJsSpace ++ cs.dropWhile isJsSpace :=
      (List.takeWhile_append_dropWhile isJsSpace cs).symm
    have h2 : (cs.dropWhile isJsSpace).reverse
        = (cs.dropWhile isJsSpace).reverse.takeWhile isJsSpace
          ++ (cs.dropWhile isJsSpace).reverse.dropWhile isJsSpace :=
      (List.takeWhile_append_dropWhile isJsSpace _).symm
    have h3 : cs.dropWhile isJsSpace
        = ((cs.dropWhile isJsSpace).reverse.dropWhile isJsSpace).reverse
          ++ ((cs.dropWhile isJsSpace).reverse.takeWhile isJsSpace).reverse := by
      apply List.reverse_injective
      rw [List.reverse_append, List.reverse_reverse, List.reverse_reverse]
      exact h2
    unfold jsTrim
    rw [List.append_assoc, ← h3]
    exact h1
  · intro c hc
    exact List.mem_takeWhile_imp hc
  · intro c hc
    exact List.mem_takeWhile_imp (List.mem_reverse.mp hc)
  · intro c hc
    unfold jsTrim at hc
    rw [List.head?_reverse] at hc
    have := getLast_dropWhile isJsSpace _ c hc
    rw [List.getLast?_reverse] at this
    exact head_dropWhile_not isJsSpace cs c this
  · intro c hc
    unfold jsTrim at hc
    rw [List.getLast?_reverse] at hc
    exact head_dropWhile_not isJsSpace _ c hc

/-- C12: for a non-empty value `s` of `AUTUMN_TRUSTED_PROXIES`, the resolved
`trustedProxies` is the list of the pieces of `s` between commas, each trimmed,
in order.  The pieces are characterised by: joined with commas they give back
`s`, and none contains a comma; hence there are (number of commas) + 1 of them.
Trimming removes a run of white space at each end and leaves no white space
at either end.
The result does not depend on the base, so nothing of the base list is kept;
every successful resolution carries this list. -/
theorem trustedProxies_parsing (B : Builtins) (config : Config) (env : Env) (s : String)
    (hs : truthy (env "AUTUMN_TRUSTED_PROXIES") = some s) :
    finalConfig_trustedProxies config env
        = (splitComma s.data).map (fun q => String.mk (jsTrim q)) ∧
      List.intercalate [','] (splitComma s.data) = s.data ∧
      (∀ q ∈ splitComma s.data, ',' ∉ q) ∧
      (∀ q : List Char, ∃ before after, q = before ++ jsTrim q ++ after ∧
        (∀ c ∈ before, isJsSpace c = true) ∧ (∀ c ∈ after, isJsSpace c = true) ∧
        (∀ c, (jsTrim q).head? = some c → isJsSpace c = false) ∧
        (∀ c, (jsTrim q).getLast? = some c → isJsSpace c = false)) ∧
      (finalConfig_trustedProxies config env).length = s.data.count ',' + 1 ∧
      (∀ other : Config,
        finalConfig_trustedProxies other env = finalConfig_trustedProxies config env) ∧
      (∀ r, finalConfig B config env = .ok r →
        r.trustedProxies = (splitComma s.data).map (fun q => String.mk (jsTrim q))) := by
  have hrule : ∀ c : Config, finalConfig_trustedProxies c env
      = (splitComma s.data).map (fun q => String.mk (jsTrim q)) := by
    intro c
    simp [finalConfig_trustedProxies, hs, splitTrim]
  refine ⟨hrule config, splitComma_join _, splitComma_no_comma _, jsTrim_spec, ?_, ?_, ?_⟩
  · rw [hrule config, List.length_map, splitComma_length]
  · intro other
    rw [hrule other, hrule config]
  · intro r hr
    obtain ⟨m, u, o, -, -, -, rfl⟩ := rules_of_finalConfig B config env hr
    exact hrule config

theorem trustedProxies_parsing_witness :
    finalConfig_trustedProxies sampleConfig
        (Env.ofList [("AUTUMN_TRUSTED_PROXIES", "10.0.0.0/8, 172.16.0.0/12")])
      = ["10.0.0.0/8", "172.16.0.0/12"] :=
  (trustedProxies_parsing refBuiltins sampleConfig
    (Env.ofList [("AUTUMN_TRUSTED_PROXIES", "10.0.0.0/8, 172.16.0.0/12")])
    "10.0.0.0/8, 172.16.0.0/12" rfl).1.trans (by decide)

/-! ## Layer merger (lines 84-103) -/

/-- C13 as stated fails: in test mode a `port` key of the file configuration
is ignored and the base keeps the default port. -/
theorem test_mode_ignores_file_port :
    (config refBuiltins (defaultConfig refBuiltins "/app") "/app" "/data"
        { FileConfig.empty with port := some (.finite 6000) }
        (Env.ofList [("NODE_ENV", "test")])).port = .finite 5006 ∧
      (defaultConfig refBuiltins "/app").port = .finite 5006 :=
  ⟨rfl, rfl⟩

/-- C13 amended: outside test mode every field of the base other than `mode`,
`dataDir`, `serverFiles` and `userFiles` is the value of the file configuration
when the file has that key and the default otherwise; in test mode the file
configuration is not merged and every such field is the default. -/
theorem config_field_merge (B : Builtins) (defaults : DefaultConfig)
    (projectRoot defaultDataDir : String) (userConfig : FileConfig) (env : Env) :
    let base := config B defaults projectRoot defaultDataDir userConfig env
    (env "NODE_ENV" ≠ some "test" →
      base.loginMethod = userConfig.loginMethod.getD defaults.loginMethod ∧
      base.trustedProxies = userConfig.trustedProxies.getD defaults.trustedProxies ∧
      base.port = userConfig.port.getD defaults.port ∧
      base.hostname = userConfig.hostname.getD defaults.hostname ∧
      base.webRoot = userConfig.webRoot.getD defaults.webRoot ∧
      base.https = userConfig.https.getD defaults.https ∧
      base.upload = userConfig.upload.getD defaults.upload ∧
      base.openId = userConfig.openId.getD defaults.openId ∧
      base.projectRoot = userConfig.projectRoot.getD defaults.projectRoot ∧
      base.multiuser = userConfig.multiuser.getD defaults.multiuser ∧
      base.token_expiration = userConfig.token_expiration.getD defaults.token_expiration) ∧
    (env "NODE_ENV" = some "test" →
      base.loginMethod = defaults.loginMethod ∧
      base.trustedProxies = defaults.trustedProxies ∧
      base.port = defaults.port ∧
      base.hostname = defaults.hostname ∧
      base.webRoot = defaults.webRoot ∧
      base.https = defaults.https ∧
      base.upload = defaults.upload ∧
      base.openId = defaults.openId ∧
      base.projectRoot = defaults.projectRoot ∧
      base.multiuser = defaults.multiuser ∧
      base.token_expiration = defaults.token_expiration) := by
  intro base
  constructor
  · intro h
    simp [base, config, h]
  · intro h
    simp [base, config, h]

theorem config_field_merge_witness :
    (config refBuiltins (defaultConfig refBuiltins "/app") "/app" "/data"
        { FileConfig.empty with port := some (.finite 6000) } (Env.ofList [])).port
      = .finite 6000 :=
  ((config_field_merge refBuiltins (defaultConfig refBuiltins "/app") "/app" "/data"
    { FileConfig.empty with port := some (.finite 6000) } (Env.ofList [])).1
    (by decide)).2.2.1

/-- C14 as stated fails: outside test mode a `mode` key of the file
configuration replaces `"development"`. -/
theorem file_mode_replaces_development :
    (config refBuiltins (defaultConfig refBuiltins "/app") "/app" "/data"
        { FileConfig.empty with mode := some "production" } (Env.ofList [])).mode
      = "production" :=
  rfl

/-- C14 amended: the `mode` of the base is `"test"` in test mode; outside test
mode it is the `mode` key of the file configuration when the file has one and
`"development"` otherwise. -/
theorem config_mode (B : Builtins) (defaults : DefaultConfig)
    (projectRoot defaultDataDir : String) (userConfig : FileConfig) (env : Env) :
    let base := config B defaults projectRoot defaultDataDir userConfig env
    (env "NODE_ENV" = some "test" → base.mode = "test") ∧
      (env "NODE_ENV" ≠ some "test" → userConfig.mode = none → base.mode = "development") ∧
      (env "NODE_ENV" ≠ some "test" → ∀ m, userConfig.mode = some m → base.mode = m) := by
  intro base
  refine ⟨?_, ?_, ?_⟩
  · intro h
    simp [base, config, h]
  · intro h hm
    simp [base, config, h, hm]
  · intro h m hm
    simp [base, config, h, hm]

theorem config_mode_witness :
    (config refBuiltins (defaultConfig refBuiltins "/app") "/app" "/data" FileConfig.empty
        (Env.ofList [])).mode = "development" :=
  (config_mode refBuiltins (defaultConfig refBuiltins "/app") "/app" "/data" FileConfig.empty
    (Env.ofList [])).2.1 (by decide) rfl

/-! ## Data directory (lines 13-52 and 94-103) -/

theorem userConfig_explicit_path (B : Builtins) (host : Host) (projectRoot : String) (env : Env)
    (configPath : String) (hpath : truthy (env "AUTUMN_CONFIG_PATH") = some configPath)
    {loaded : FileConfig} {dataDirectory : String}
    (hload : userConfig B host projectRoot env = .ok (loaded, dataDirectory)) :
    dataDirectory = loaded.dataDir.getD (defaultDataDir host projectRoot env) := by
  unfold userConfig at hload
  rw [hpath] at hload
  cases hp : parseJSON host configPath false with
  | error e => simp [hp, bind, Except.bind] at hload
  | ok fileConfig =>
    simp [hp, bind, Except.bind, pure, Except.pure] at hload
    obtain ⟨h1, h2⟩ := hload
    subst h1
    exact h2.symm

theorem userConfig_conventional_path (B : Builtins) (host : Host) (projectRoot : String)
    (env : Env) (hpath : truthy (env "AUTUMN_CONFIG_PATH") = none)
    {loaded : FileConfig} {dataDirectory : String}
    (hload : userConfig B host projectRoot env = .ok (loaded, dataDirectory)) :
    dataDirectory = defaultDataDir host projectRoot env := by
  unfold userConfig at hload
  rw [hpath] at hload
  simp only [] at hload
  cases hp : parseJSON host
      (if host.existsSync (B.pathJoin [projectRoot, "config.json"]) = true then
        B.pathJoin [projectRoot, "config.json"]
      else B.pathJoin [defaultDataDir host projectRoot env, "config.json"]) true with
  | error e => simp [hp, bind, Except.bind] at hload
  | ok fileConfig =>
    simp [hp, bind, Except.bind, pure, Except.pure] at hload
    exact hload.2.symm

theorem loadedConfig_of_userConfig (B : Builtins) (host : Host) (projectRoot : String)
    (env : Env) {loaded : FileConfig} {dataDirectory : String}
    (hload : userConfig B host projectRoot env = .ok (loaded, dataDirectory)) :
    loadedConfig B host projectRoot env
      = .ok (config B (defaultConfig B projectRoot) projectRoot dataDirectory loaded env) := by
  simp [loadedConfig, hload, bind, Except.bind, pure, Except.pure]

/-- Outside test mode, for a file configuration that sets neither `serverFiles`
nor `userFiles`, the derived directories lie under the `dataDir` of the base
when the file was loaded from `AUTUMN_CONFIG_PATH`, and also when it was loaded
from the conventional path and has no `dataDir` key. -/
theorem derived_directories_follow_dataDir (B : Builtins) (host : Host) (projectRoot : String)
    (env : Env) (hmode : env "NODE_ENV" ≠ some "test")
    {loaded : FileConfig} {dataDirectory : String}
    (hload : userConfig B host projectRoot env = .ok (loaded, dataDirectory))
    (hs : loaded.serverFiles = none) (hu : loaded.userFiles = none)
    (hcase : truthy (env "AUTUMN_CONFIG_PATH") ≠ none ∨ loaded.dataDir = none) :
    let base := config B (defaultConfig B projectRoot) projectRoot dataDirectory loaded env
    base.serverFiles = B.pathJoin [base.dataDir, "server-files"] ∧
      base.userFiles = B.pathJoin [base.dataDir, "user-files"] := by
  intro base
  have hdir : base.dataDir = dataDirectory := by
    rcases hcase with hc | hc
    · cases hp : truthy (env "AUTUMN_CONFIG_PATH") with
      | none => exact absurd hp hc
      | some configPath =>
        have := userConfig_explicit_path B host projectRoot env configPath hp hload
        cases hd : loaded.dataDir with
        | none => simp [base, config, hmode, hd]
        | some d =>
          rw [hd] at this
          simp [base, config, hmode, hd, this]
    · simp [base, config, hmode, hc]
  rw [hdir]
  simp [base, config, hmode, hs, hu]

/-- C15 at the failing input: the file `/app/config.json`, found at the
conventional path, sets `dataDir` to `/custom` and nothing else.  The base has
`dataDir = /custom` but `serverFiles = /app/server-files` and
`userFiles = /app/user-files`, which are not under its `dataDir`.  The same
file named by `AUTUMN_CONFIG_PATH` gives `/custom/server-files` and
`/custom/user-files`. -/
theorem conventional_path_directories_ignore_dataDir :
    (loadedConfig refBuiltins sampleHost "/app" (Env.ofList [])).map
        (fun base => (base.dataDir, base.serverFiles, base.userFiles))
        = .ok ("/custom", "/app/server-files", "/app/user-files") ∧
      (loadedConfig refBuiltins sampleHost "/app"
        (Env.ofList [("AUTUMN_CONFIG_PATH", "/app/config.json")])).map
        (fun base => (base.dataDir, base.serverFiles, base.userFiles))
        = .ok ("/custom", "/custom/server-files", "/custom/user-files") :=
  ⟨rfl, rfl⟩

/-- C16: outside test mode, once the file configuration is loaded (from the
conventional path or from `AUTUMN_CONFIG_PATH`), the base configuration exists
and its `dataDir` is the `dataDir` key of the file when the file has one;
otherwise the value of `AUTUMN_DATA_DIR` when that is set and not empty;
otherwise `/data` if it exists and `projectRoot` if not. -/
theorem dataDir_precedence (B : Builtins) (host : Host) (projectRoot : String) (env : Env)
    (hmode : env "NODE_ENV" ≠ some "test") (loaded : FileConfig) (dataDirectory : String)
    (hload : userConfig B host projectRoot env = .ok (loaded, dataDirectory)) :
    ∃ base, loadedConfig B host projectRoot env = .ok base ∧
      (∀ d, loaded.dataDir = some d → base.dataDir = d) ∧
      (loaded.dataDir = none → ∀ v, truthy (env "AUTUMN_DATA_DIR") = some v →
        base.dataDir = v) ∧
      (loaded.dataDir = none → truthy (env "AUTUMN_DATA_DIR") = none →
        base.dataDir = if host.existsSync "/data" then "/data" else projectRoot) := by
  refine ⟨_, loadedConfig_of_userConfig B host projectRoot env hload, ?_, ?_, ?_⟩
  · intro d hd
    simp [config, hmode, hd]
  · intro hd v hv
    have hdir : dataDirectory = defaultDataDir host projectRoot env := by
      cases hp : truthy (env "AUTUMN_CONFIG_PATH") with
      | none => exact userConfig_conventional_path B host projectRoot env hp hload
      | some configPath =>
        have := userConfig_explicit_path B host projectRoot env configPath hp hload
        simpa [hd] using this
    simp [config, hmode, hd, hdir, defaultDataDir, strOr, hv]
  · intro hd hv
    have hdir : dataDirectory = defaultDataDir host projectRoot env := by
      cases hp : truthy (env "AUTUMN_CONFIG_PATH") with
      | none => exact userConfig_conventional_path B host projectRoot env hp hload
      | some configPath =>
        have := userConfig_explicit_path B host projectRoot env configPath hp hload
        simpa [hd] using this
    simp [config, hmode, hd, hdir, defaultDataDir, strOr, hv]

theorem dataDir_precedence_witness :
    ∃ base, loadedConfig refBuiltins sampleHost "/app"
        (Env.ofList [("AUTUMN_DATA_DIR", "/var/lib/autumn")]) = .ok base ∧
      base.dataDir = "/custom" :=
  let ⟨base, hbase, hfile, _, _⟩ := dataDir_precedence refBuiltins sampleHost "/app"
    (Env.ofList [("AUTUMN_DATA_DIR", "/var/lib/autumn")]) (by decide)
    { FileConfig.empty with dataDir := some "/custom" } "/var/lib/autumn" rfl
  ⟨base, hbase, hfile "/custom" rfl⟩

/-! ## Invariant of the resolved configuration -/

theorem truthy_ne_empty {v : Option String} {s : String} (h : truthy v = some s) :
    v = some s ∧ s ≠ "" := by
  unfold truthy at h
  cases v with
  | none => cases h
  | some t =>
    by_cases ht : t = ""
    · simp [ht] at h
    · simp [ht] at h
      subst h
      exact ⟨rfl, ht⟩

theorem replaceEscapedNewlines_ne_nil (cs : List Char) (h : cs ≠ []) :
    replaceEscapedNewlines cs ≠ [] := by
  match cs, h with
  | [c], _ => simp [replaceEscapedNewlines]
  | c :: d :: rest, _ =>
    unfold replaceEscapedNewlines
    split <;> simp

theorem unescapeNewlines_ne_empty (s : String) (h : s ≠ "") : unescapeNewlines s ≠ "" := by
  unfold unescapeNewlines
  intro hcontra
  have hdata : replaceEscapedNewlines s.data = [] := by
    have := congrArg String.data hcontra
    simpa using this
  have hs : s.data ≠ [] := by
    intro hnil
    apply h
    cases s
    simp_all
  exact replaceEscapedNewlines_ne_nil s.data hs hdata

theorem openIdIssuer_complete (env : Env) {issuer : Issuer} (h : openIdIssuer env = .ok issuer)
    (e : IssuerEndpoints) (he : issuer = .endpoints e) :
    presentNonEmpty e.authorization_endpoint ∧ presentNonEmpty e.token_endpoint ∧
      presentNonEmpty e.userinfo_endpoint := by
  subst he
  unfold openIdIssuer at h
  cases hD : truthy (env "AUTUMN_OPENID_DISCOVERY_URL") with
  | some d => simp [hD] at h
  | none =>
    cases hA : truthy (env "AUTUMN_OPENID_AUTHORIZATION_ENDPOINT") with
    | none => simp [hD, hA, missingEndpoints] at h
    | some a =>
      cases hT : truthy (env "AUTUMN_OPENID_TOKEN_ENDPOINT") with
      | none => simp [hD, hA, hT, missingEndpoints] at h
      | some t =>
        cases hU : truthy (env "AUTUMN_OPENID_USERINFO_ENDPOINT") with
        | none => simp [hD, hA, hT, hU, missingEndpoints] at h
        | some u =>
          simp [hD, hA, hT, hU, missingEndpoints] at h
          subst h
          obtain ⟨ha1, ha2⟩ := truthy_ne_empty hA
          obtain ⟨ht1, ht2⟩ := truthy_ne_empty hT
          obtain ⟨hu1, hu2⟩ := truthy_ne_empty hU
          exact ⟨⟨a, ha1, ha2⟩, ⟨t, ht1, ht2⟩, ⟨u, hu1, hu2⟩⟩

/-- C17 as stated fails: a file configuration whose `https` has an empty key
and certificate is resolved, with no variable set, to a configuration whose
`https` is present with an empty key and certificate. -/
theorem empty_file_https_is_kept :
    finalConfig refBuiltins { sampleConfig with https := some ⟨"", ""⟩ } (Env.ofList [])
        = .ok { sampleConfig with https := some ⟨"", ""⟩ } ∧
      ¬ (Config.invariant { sampleConfig with https := some ⟨"", ""⟩ }) := by
  refine ⟨rfl, ?_⟩
  intro h
  exact (h.1 ⟨"", ""⟩ rfl).1 rfl

/-- C17 amended: the override resolver preserves the invariant.  If the `https`
and `openId` of the base (those of the defaults or the file, if any) satisfy it
and resolution succeeds, then in the resolved configuration a present `https`
has a non-empty key and certificate and a present `openId` with a structured
issuer has its three endpoints present and non-empty.  A base without `https`
and `openId` satisfies the invariant. -/
theorem resolved_invariant (B : Builtins) (config : Config) (env : Env) (r : Config)
    (hbase : config.invariant ∨ (config.https = none ∧ config.openId = none))
    (hr : finalConfig B config env = .ok r) : r.invariant := by
  have hinv : config.invariant := by
    rcases hbase with h | ⟨h1, h2⟩
    · exact h
    · exact ⟨fun h hh => (by rw [h1] at hh; cases hh), fun o ho => (by rw [h2] at ho; cases ho)⟩
  obtain ⟨m, u, o, -, -, ho, rfl⟩ := rules_of_finalConfig B config env hr
  constructor
  · intro h hh
    have hh2 : finalConfig_https config env = some h := hh
    unfold finalConfig_https at hh2
    split at hh2
    · rename_i k c hk hc
      cases hc2 : config.https with
      | some base =>
        simp [hc2] at hh2
        subst hh2
        exact hinv.1 base hc2
      | none =>
        simp [hc2] at hh2
        subst hh2
        exact ⟨unescapeNewlines_ne_empty k (truthy_ne_empty hk).2,
          unescapeNewlines_ne_empty c (truthy_ne_empty hc).2⟩
    · exact hinv.1 h hh2
  · intro d hd
    have hd2 : o = some d := hd
    subst hd2
    unfold finalConfig_openId at ho
    split at ho
    · exact hinv.2 d (Except.ok.inj ho)
    · cases hi : openIdIssuer env with
      | error e => simp [hi, bind, Except.bind] at ho
      | ok issuer =>
        simp [hi, bind, Except.bind, pure, Except.pure] at ho
        subst ho
        intro e he
        exact openIdIssuer_complete env hi e he

theorem resolved_invariant_witness :
    Config.invariant { sampleConfig with https := some ⟨"K\nEY", "CERT"⟩ } :=
  resolved_invariant refBuiltins sampleConfig
    (Env.ofList [("AUTUMN_HTTPS_KEY", "K\\nEY"), ("AUTUMN_HTTPS_CERT", "CERT")])
    { sampleConfig with https := some ⟨"K\nEY", "CERT"⟩ } (Or.inr ⟨rfl, rfl⟩) rfl

/-! ## Frame: what unset variables leave alone -/

/-- C18: a field whose trigger variables are all unset keeps the value of the
base: the three rules that can throw return the base value, and every
successful resolution has the base value in that field; `mode` and `dataDir`
always keep their base values; and with the empty environment the resolver
returns the base itself. -/
theorem unset_variables_keep_base (B : Builtins) (config : Config) (env : Env) :
    (env "AUTUMN_MULTIUSER" = none →
      finalConfig_multiuser B config env = .ok config.multiuser) ∧
    (env "AUTUMN_UPLOAD_FILE_SYNC_SIZE_LIMIT_MB" = none →
      env "AUTUMN_UPLOAD_SYNC_ENCRYPTED_FILE_SYNC_SIZE_LIMIT_MB" = none →
      env "AUTUMN_UPLOAD_FILE_SIZE_LIMIT_MB" = none →
      finalConfig_upload B config env = .ok config.upload) ∧
    (env "AUTUMN_OPENID_DISCOVERY_URL" = none →
      env "AUTUMN_OPENID_AUTHORIZATION_ENDPOINT" = none →
      finalConfig_openId config env = .ok config.openId) ∧
    (∀ r, finalConfig B config env = .ok r →
      r.mode = config.mode ∧ r.dataDir = config.dataDir ∧
      (env "AUTUMN_LOGIN_METHOD" = none → r.loginMethod = config.loginMethod) ∧
      (env "AUTUMN_MULTIUSER" = none → r.multiuser = config.multiuser) ∧
      (env "AUTUMN_TRUSTED_PROXIES" = none → r.trustedProxies = config.trustedProxies) ∧
      (env "AUTUMN_PORT" = none → env "PORT" = none → r.port = config.port) ∧
      (env "AUTUMN_HOSTNAME" = none → r.hostname = config.hostname) ∧
      (env "AUTUMN_SERVER_FILES" = none → r.serverFiles = config.serverFiles) ∧
      (env "AUTUMN_USER_FILES" = none → r.userFiles = config.userFiles) ∧
      (env "AUTUMN_WEB_ROOT" = none → r.webRoot = config.webRoot) ∧
      (env "AUTUMN_TOKEN_EXPIRATION" = none → r.token_expiration = config.token_expiration) ∧
      (env "AUTUMN_HTTPS_KEY" = none → env "AUTUMN_HTTPS_CERT" = none →
        r.https = config.https) ∧
      (env "AUTUMN_UPLOAD_FILE_SYNC_SIZE_LIMIT_MB" = none →
        env "AUTUMN_UPLOAD_SYNC_ENCRYPTED_FILE_SYNC_SIZE_LIMIT_MB" = none →
        env "AUTUMN_UPLOAD_FILE_SIZE_LIMIT_MB" = none → r.upload = config.upload) ∧
      (env "AUTUMN_OPENID_DISCOVERY_URL" = none →
        env "AUTUMN_OPENID_AUTHORIZATION_ENDPOINT" = none → r.openId = config.openId)) ∧
    finalConfig B config (Env.ofList []) = .ok config := by
  have hm : env "AUTUMN_MULTIUSER" = none →
      finalConfig_multiuser B config env = .ok config.multiuser := by
    intro h
    simp [finalConfig_multiuser, truthy, h]
  have hu : env "AUTUMN_UPLOAD_FILE_SYNC_SIZE_LIMIT_MB" = none →
      env "AUTUMN_UPLOAD_SYNC_ENCRYPTED_FILE_SYNC_SIZE_LIMIT_MB" = none →
      env "AUTUMN_UPLOAD_FILE_SIZE_LIMIT_MB" = none →
      finalConfig_upload B config env = .ok config.upload := by
    intro h1 h2 h3
    simp [finalConfig_upload, truthy, h1, h2, h3]
  have ho : env "AUTUMN_OPENID_DISCOVERY_URL" = none →
      env "AUTUMN_OPENID_AUTHORIZATION_ENDPOINT" = none →
      finalConfig_openId config env = .ok config.openId := by
    intro h1 h2
    simp [finalConfig_openId, truthy, h1, h2]
  refine ⟨hm, hu, ho, ?_, ?_⟩
  · intro r hr
    obtain ⟨m, u, o, hm2, hu2, ho2, rfl⟩ := rules_of_finalConfig B config env hr
    refine ⟨rfl, rfl, ?_, ?_, ?_, ?_, ?_, ?_, ?_, ?_, ?_, ?_, ?_, ?_⟩
    · intro h; simp [assemble, finalConfig_loginMethod, truthy, h]
    · intro h
      have := hm h
      rw [hm2] at this
      exact Except.ok.inj this
    · intro h; simp [assemble, finalConfig_trustedProxies, truthy, h]
    · intro h1 h2
      simp [assemble, finalConfig_port, Builtins.toNumber, JsNumber.or, JsNumber.truthy, h1, h2]
    · intro h; simp [assemble, strOr, truthy, h]
    · intro h; simp [assemble, strOr, truthy, h]
    · intro h; simp [assemble, strOr, truthy, h]
    · intro h; simp [assemble, strOr, truthy, h]
    · intro h; simp [assemble, strOr, truthy, h]
    · intro h1 h2; simp [assemble, finalConfig_https, truthy, h1, h2]
    · intro h1 h2 h3
      have := hu h1 h2 h3
      rw [hu2] at this
      exact Except.ok.inj this
    · intro h1 h2
      have := ho h1 h2
      rw [ho2] at this
      exact Except.ok.inj this
  · have e : ∀ name, (Env.ofList []) name = none := fun _ => rfl
    simp [finalConfig, finalConfig_multiuser, finalConfig_upload, finalConfig_openId,
      finalConfig_loginMethod, finalConfig_trustedProxies, finalConfig_port, finalConfig_https,
      strOr, truthy, e, Builtins.toNumber, JsNumber.or, JsNumber.truthy,
      bind, Except.bind, pure, Except.pure]

theorem unset_variables_keep_base_witness :
    finalConfig_upload refBuiltins sampleConfig (Env.ofList [("AUTUMN_PORT", "3000")])
      = .ok (some ⟨.finite 20, .finite 50, .finite 20⟩) :=
  (unset_variables_keep_base refBuiltins sampleConfig
    (Env.ofList [("AUTUMN_PORT", "3000")])).2.1 rfl rfl rfl

/-! ## OpenID discovery mode (lines 153-198) -/

/-- C19: with a non-empty `AUTUMN_OPENID_DISCOVERY_URL` the `openId` rule never
throws, whatever endpoint variables are set; the issuer is the discovery URL
itself; and each of `client_id`, `client_secret`, `server_hostname` is the
value of its own variable when that is set and the field of the `openId` of the
base otherwise (absent when the base has none).  The whole resolution succeeds
whenever the `multiuser` and `upload` rules do, and every successful
resolution carries this `openId`. -/
theorem openId_discovery_mode (B : Builtins) (config : Config) (env : Env) (discovery : String)
    (hD : truthy (env "AUTUMN_OPENID_DISCOVERY_URL") = some discovery) :
    let inherit := fun (name : String) (field : OpenId → Option String) =>
      match env name with
      | some value => some value
      | none =>
        match config.openId with
        | some base => field base
        | none => none
    let descriptor : OpenId :=
      { issuer := .url discovery
        client_id := inherit "AUTUMN_OPENID_CLIENT_ID" OpenId.client_id
        client_secret := inherit "AUTUMN_OPENID_CLIENT_SECRET" OpenId.client_secret
        server_hostname := inherit "AUTUMN_OPENID_SERVER_HOSTNAME" OpenId.server_hostname }
    finalConfig_openId config env = .ok (some descriptor) ∧
      (∀ m up, finalConfig_multiuser B config env = .ok m →
        finalConfig_upload B config env = .ok up →
        ∃ r, finalConfig B config env = .ok r ∧ r.openId = some descriptor) ∧
      (∀ r, finalConfig B config env = .ok r → r.openId = some descriptor) := by
  intro inherit descriptor
  have hrule : finalConfig_openId config env = .ok (some descriptor) := by
    have e : ∀ (name : String) (field : OpenId → Option String),
        (env name).orElse (fun _ => config.openId.bind field) = inherit name field := by
      intro name field
      simp only [inherit]
      cases env name <;> cases config.openId <;> rfl
    simp [finalConfig_openId, openIdIssuer, hD, bind, Except.bind, pure, Except.pure,
      descriptor, e]
  refine ⟨hrule, ?_, ?_⟩
  · intro m up hm hup
    exact ⟨_, finalConfig_of_rules B config env hm hup hrule, rfl⟩
  · intro r hr
    obtain ⟨m, up, o, -, -, ho, rfl⟩ := rules_of_finalConfig B config env hr
    rw [hrule] at ho
    exact (Except.ok.inj ho).symm

theorem openId_discovery_mode_witness :
    finalConfig_openId
        { sampleConfig with openId := some ⟨.url "https://old.example", some "file-id",
            some "file-secret", none⟩ }
        (Env.ofList [("AUTUMN_OPENID_DISCOVERY_URL", "https://idp.example/.well-known"),
          ("AUTUMN_OPENID_TOKEN_ENDPOINT", "https://idp.example/token"),
          ("AUTUMN_OPENID_CLIENT_ID", "env-id")])
      = .ok (some ⟨.url "https://idp.example/.well-known", some "env-id",
          some "file-secret", none⟩) :=
  (openId_discovery_mode refBuiltins
    { sampleConfig with openId := some ⟨.url "https://old.example", some "file-id",
        some "file-secret", none⟩ }
    (Env.ofList [("AUTUMN_OPENID_DISCOVERY_URL", "https://idp.example/.well-known"),
      ("AUTUMN_OPENID_TOKEN_ENDPOINT", "https://idp.example/token"),
      ("AUTUMN_OPENID_CLIENT_ID", "env-id")])
    "https://idp.example/.well-known" rfl).1

/-! ## Debug output and secrets (lines 203-217) -/

theorem jsLength_stars (n : Nat) : jsLength (stars n) = n := by
  unfold jsLength stars
  induction n with
  | zero => rfl
  | succ k ih =>
    simp only [List.replicate_succ, List.map_cons, List.sum_cons] at ih ⊢
    rw [ih]
    have : ('*' : Char).toNat < 0x10000 := by decide
    simp [this]
    omega

/-- C20 as stated fails: for the non-empty key `*` the message written to the
non-sensitive channel, `using https key: *`, contains the key as a substring. -/
theorem starred_message_contains_star_key :
    messagesOn .debug (httpsLog (some ⟨"*", "*"⟩))
        = ["using https key: *", "using https cert: *"] ∧
      List.IsInfix ("*" : String).data ("using https key: *" : String).data :=
  ⟨rfl, ⟨("using https key: " : String).data, [], rfl⟩⟩

/-- C20 amended: for a resolved configuration with `https` present, the
messages that mention the key or the certificate on the non-sensitive channel
are `using https key: ` and `using https cert: ` followed by a run of `*` as
long as the secret; the literal values are written to the sensitive channel
and only there are they written as such; and the whole output of the
non-sensitive channel depends on the key and the certificate through their
lengths only: replacing them by any others of the same lengths leaves every
message of that channel unchanged. -/
theorem secrets_are_redacted (numberToString : JsNumber → String) (finalConfig : Config)
    (h : Https) (hh : finalConfig.https = some h) :
    messagesOn .debug (httpsLog finalConfig.https)
        = ["using https key: " ++ stars (jsLength h.key),
            "using https cert: " ++ stars (jsLength h.cert)] ∧
      (stars (jsLength h.key)).data = List.replicate (jsLength h.key) '*' ∧
      (stars (jsLength h.cert)).data = List.replicate (jsLength h.cert) '*' ∧
      jsLength (stars (jsLength h.key)) = jsLength h.key ∧
      jsLength (stars (jsLength h.cert)) = jsLength h.cert ∧
      messagesOn .debugSensitive (debugLog numberToString finalConfig)
        = ["using https key " ++ h.key, "using https cert " ++ h.cert] ∧
      (∀ other : Https, jsLength other.key = jsLength h.key →
        jsLength other.cert = jsLength h.cert →
        messagesOn .debug (debugLog numberToString { finalConfig with https := some other })
          = messagesOn .debug (debugLog numberToString finalConfig)) := by
  have hup : ∀ up, messagesOn .debugSensitive (uploadLog numberToString up) = [] := by
    intro up
    cases up <;> simp [uploadLog, messagesOn]
  refine ⟨?_, rfl, rfl, jsLength_stars _, jsLength_stars _, ?_, ?_⟩
  · simp [hh, httpsLog, messagesOn]
  · have := hup finalConfig.upload
    simp only [messagesOn] at this
    simp [debugLog, hh, httpsLog, messagesOn, List.filter_append, this]
  · intro other h1 h2
    simp [debugLog, hh, httpsLog, messagesOn, List.filter_append, h1, h2]

theorem secrets_are_redacted_witness :
    messagesOn .debug (httpsLog (some ⟨"SECRET", "PEM"⟩))
      = ["using https key: ******", "using https cert: ***"] :=
  (secrets_are_redacted (fun _ => "5006") { sampleConfig with https := some ⟨"SECRET", "PEM"⟩ }
    ⟨"SECRET", "PEM"⟩ rfl).1.trans (by decide)

/-! ## Empty values of variables -/

theorem falsyAlike_or {a a2 b b2 : JsNumber} (ha : falsyAlike a a2) (hb : falsyAlike b b2) :
    falsyAlike (a.or b) (a2.or b2) := by
  unfold falsyAlike JsNumber.or at *
  rcases ha with rfl | ⟨h1, h2⟩
  · by_cases h : a.truthy = true
    · simp [h]
    · simpa [h] using hb
  · simpa [h1, h2] using hb

theorem or_eq_of_falsyAlike {a a2 : JsNumber} (ha : falsyAlike a a2) (c : JsNumber) :
    a.or c = a2.or c := by
  unfold falsyAlike JsNumber.or at *
  rcases ha with rfl | ⟨h1, h2⟩
  · rfl
  · simp [h1, h2]

theorem orUploadProperty_of_falsyAlike {a a2 : JsNumber} (ha : falsyAlike a a2)
    (upload : Option Upload) (property : String) (get : Upload → JsNumber) :
    orUploadProperty a upload property get = orUploadProperty a2 upload property get := by
  unfold falsyAlike orUploadProperty at *
  rcases ha with rfl | ⟨h1, h2⟩
  · rfl
  · simp [h1, h2]

theorem openIdIssuer_env_congr (e1 e2 : Env) (ht : ∀ k, truthy (e1 k) = truthy (e2 k))
    (hname : truthy (e2 "AUTUMN_OPENID_DISCOVERY_URL") = none →
      truthy (e2 "AUTUMN_OPENID_AUTHORIZATION_ENDPOINT") ≠ none →
      truthy (e2 "AUTUMN_OPENID_TOKEN_ENDPOINT") ≠ none →
      truthy (e2 "AUTUMN_OPENID_USERINFO_ENDPOINT") ≠ none →
      e1 "AUTUMN_OPENID_PROVIDER_NAME" = e2 "AUTUMN_OPENID_PROVIDER_NAME") :
    openIdIssuer e1 = openIdIssuer e2 := by
  have hmissing : missingEndpoints e1 = missingEndpoints e2 := by
    simp only [missingEndpoints, List.filter, ht]
    cases (truthy (e2 "AUTUMN_OPENID_AUTHORIZATION_ENDPOINT")).isNone <;>
      cases (truthy (e2 "AUTUMN_OPENID_TOKEN_ENDPOINT")).isNone <;>
      cases (truthy (e2 "AUTUMN_OPENID_USERINFO_ENDPOINT")).isNone <;> rfl
  unfold openIdIssuer
  rw [ht "AUTUMN_OPENID_DISCOVERY_URL", hmissing]
  cases hD : truthy (e2 "AUTUMN_OPENID_DISCOVERY_URL") with
  | some d => rfl
  | none =>
    simp only []
    cases hA : truthy (e2 "AUTUMN_OPENID_AUTHORIZATION_ENDPOINT") with
    | none => simp [missingEndpoints, List.filter, hA]
    | some a =>
      cases hT : truthy (e2 "AUTUMN_OPENID_TOKEN_ENDPOINT") with
      | none => simp [missingEndpoints, List.filter, hA, hT]
      | some t =>
        cases hU : truthy (e2 "AUTUMN_OPENID_USERINFO_ENDPOINT") with
        | none => simp [missingEndpoints, List.filter, hA, hT, hU]
        | some u =>
          have hn := hname hD (by simp [hA]) (by simp [hT]) (by simp [hU])
          have a1 := (truthy_ne_empty ((ht _).trans hA)).1
          have a2 := (truthy_ne_empty hA).1
          have t1 := (truthy_ne_empty ((ht _).trans hT)).1
          have t2 := (truthy_ne_empty hT).1
          have u1 := (truthy_ne_empty ((ht _).trans hU)).1
          have u2 := (truthy_ne_empty hU).1
          rw [hn, a1, a2, t1, t2, u1, u2]

theorem openIdIssuer_ok_cases (env : Env) {issuer : Issuer} (h : openIdIssuer env = .ok issuer) :
    truthy (env "AUTUMN_OPENID_DISCOVERY_URL") ≠ none ∨
      (truthy (env "AUTUMN_OPENID_AUTHORIZATION_ENDPOINT") ≠ none ∧
        truthy (env "AUTUMN_OPENID_TOKEN_ENDPOINT") ≠ none ∧
        truthy (env "AUTUMN_OPENID_USERINFO_ENDPOINT") ≠ none) := by
  unfold openIdIssuer at h
  cases hD : truthy (env "AUTUMN_OPENID_DISCOVERY_URL") with
  | some d => left; simp
  | none =>
    right
    cases hA : truthy (env "AUTUMN_OPENID_AUTHORIZATION_ENDPOINT") with
    | none => simp [hD, hA, missingEndpoints] at h
    | some a =>
      cases hT : truthy (env "AUTUMN_OPENID_TOKEN_ENDPOINT") with
      | none => simp [hD, hA, hT, missingEndpoints] at h
      | some t =>
        cases hU : truthy (env "AUTUMN_OPENID_USERINFO_ENDPOINT") with
        | none => simp [hD, hA, hT, hU, missingEndpoints] at h
        | some u => simp

/-- The override resolver reads the environment only through the truthiness
of the variables, the numbers of the port and upload variables up to falsy
values, the raw value of the provider name when the structured issuer is
built, and the raw values of the three client variables when the `openId` rule
is entered and does not throw. -/
theorem finalConfig_env_congr (B : Builtins) (config : Config) (e1 e2 : Env)
    (ht : ∀ k, truthy (e1 k) = truthy (e2 k))
    (hn : ∀ k, falsyAlike (B.toNumber (e1 k)) (B.toNumber (e2 k)))
    (hname : truthy (e1 "AUTUMN_OPENID_DISCOVERY_URL") = none →
      truthy (e1 "AUTUMN_OPENID_AUTHORIZATION_ENDPOINT") ≠ none →
      truthy (e1 "AUTUMN_OPENID_TOKEN_ENDPOINT") ≠ none →
      truthy (e1 "AUTUMN_OPENID_USERINFO_ENDPOINT") ≠ none →
      e1 "AUTUMN_OPENID_PROVIDER_NAME" = e2 "AUTUMN_OPENID_PROVIDER_NAME")
    (hclient : (truthy (e1 "AUTUMN_OPENID_DISCOVERY_URL") ≠ none ∨
        (truthy (e1 "AUTUMN_OPENID_AUTHORIZATION_ENDPOINT") ≠ none ∧
          truthy (e1 "AUTUMN_OPENID_TOKEN_ENDPOINT") ≠ none ∧
          truthy (e1 "AUTUMN_OPENID_USERINFO_ENDPOINT") ≠ none)) →
      e1 "AUTUMN_OPENID_CLIENT_ID" = e2 "AUTUMN_OPENID_CLIENT_ID" ∧
      e1 "AUTUMN_OPENID_CLIENT_SECRET" = e2 "AUTUMN_OPENID_CLIENT_SECRET" ∧
      e1 "AUTUMN_OPENID_SERVER_HOSTNAME" = e2 "AUTUMN_OPENID_SERVER_HOSTNAME") :
    finalConfig B config e1 = finalConfig B config e2 := by
  have hm : finalConfig_multiuser B config e1 = finalConfig_multiuser B config e2 := by
    simp [finalConfig_multiuser, ht]
  have hu : finalConfig_upload B config e1 = finalConfig_upload B config e2 := by
    unfold finalConfig_upload
    simp only [ht]
    rw [orUploadProperty_of_falsyAlike (falsyAlike_or (hn _) (hn _)),
      orUploadProperty_of_falsyAlike
        (falsyAlike_or (hn "AUTUMN_UPLOAD_SYNC_ENCRYPTED_FILE_SYNC_SIZE_LIMIT_MB") (hn _)),
      orUploadProperty_of_falsyAlike (hn "AUTUMN_UPLOAD_FILE_SIZE_LIMIT_MB")]
  have ho : finalConfig_openId config e1 = finalConfig_openId config e2 := by
    unfold finalConfig_openId
    by_cases htrig : (truthy (e1 "AUTUMN_OPENID_DISCOVERY_URL")).isNone = true ∧
        (truthy (e1 "AUTUMN_OPENID_AUTHORIZATION_ENDPOINT")).isNone = true
    · have htrig2 := htrig
      rw [ht, ht] at htrig2
      rw [if_pos htrig, if_pos htrig2]
    · have htrig2 := htrig
      rw [ht, ht] at htrig2
      rw [if_neg htrig, if_neg htrig2]
      have hi : openIdIssuer e1 = openIdIssuer e2 := by
        apply openIdIssuer_env_congr e1 e2 ht
        intro h1 h2 h3 h4
        rw [← ht] at h1 h2 h3 h4
        exact hname h1 h2 h3 h4
      cases hres : openIdIssuer e2 with
      | error e =>
        rw [hres] at hi
        simp [hi, hres, bind, Except.bind]
      | ok issuer =>
        rw [hres] at hi
        obtain ⟨h2, h3, h4⟩ := hclient (openIdIssuer_ok_cases e1 hi)
        simp [hi, hres, bind, Except.bind, h2, h3, h4]
  have hl : finalConfig_loginMethod B config e1 = finalConfig_loginMethod B config e2 := by
    simp [finalConfig_loginMethod, ht]
  have hp : finalConfig_trustedProxies config e1 = finalConfig_trustedProxies config e2 := by
    simp [finalConfig_trustedProxies, ht]
  have hport : finalConfig_port B config e1 = finalConfig_port B config e2 := by
    unfold finalConfig_port
    exact or_eq_of_falsyAlike (falsyAlike_or (hn _) (hn _)) _
  have hhttps : finalConfig_https config e1 = finalConfig_https config e2 := by
    simp [finalConfig_https, ht]
  have hs : ∀ k d, strOr (e1 k) d = strOr (e2 k) d := by
    intro k d
    simp [strOr, ht]
  unfold finalConfig
  rw [hm, hu, ho, hl, hp, hport, hhttps]
  simp only [hs]

theorem loadConfig_env_congr (B : Builtins) (host : Host) (projectRoot : String) (e1 e2 : Env)
    (ht : ∀ k, truthy (e1 k) = truthy (e2 k))
    (hn : ∀ k, falsyAlike (B.toNumber (e1 k)) (B.toNumber (e2 k)))
    (hname : truthy (e1 "AUTUMN_OPENID_DISCOVERY_URL") = none →
      truthy (e1 "AUTUMN_OPENID_AUTHORIZATION_ENDPOINT") ≠ none →
      truthy (e1 "AUTUMN_OPENID_TOKEN_ENDPOINT") ≠ none →
      truthy (e1 "AUTUMN_OPENID_USERINFO_ENDPOINT") ≠ none →
      e1 "AUTUMN_OPENID_PROVIDER_NAME" = e2 "AUTUMN_OPENID_PROVIDER_NAME")
    (hclient : (truthy (e1 "AUTUMN_OPENID_DISCOVERY_URL") ≠ none ∨
        (truthy (e1 "AUTUMN_OPENID_AUTHORIZATION_ENDPOINT") ≠ none ∧
          truthy (e1 "AUTUMN_OPENID_TOKEN_ENDPOINT") ≠ none ∧
          truthy (e1 "AUTUMN_OPENID_USERINFO_ENDPOINT") ≠ none)) →
      e1 "AUTUMN_OPENID_CLIENT_ID" = e2 "AUTUMN_OPENID_CLIENT_ID" ∧
      e1 "AUTUMN_OPENID_CLIENT_SECRET" = e2 "AUTUMN_OPENID_CLIENT_SECRET" ∧
      e1 "AUTUMN_OPENID_SERVER_HOSTNAME" = e2 "AUTUMN_OPENID_SERVER_HOSTNAME")
    (htest : e1 "NODE_ENV" = some "test" ↔ e2 "NODE_ENV" = some "test") :
    loadConfig B host projectRoot e1 = loadConfig B host projectRoot e2 := by
  have hdir : defaultDataDir host projectRoot e1 = defaultDataDir host projectRoot e2 := by
    simp [defaultDataDir, strOr, ht]
  have huser : userConfig B host projectRoot e1 = userConfig B host projectRoot e2 := by
    simp [userConfig, ht, hdir]
  have hconfig : ∀ defaults dataDirectory loaded,
      config B defaults projectRoot dataDirectory loaded e1
        = config B defaults projectRoot dataDirectory loaded e2 := by
    intro defaults dataDirectory loaded
    unfold config
    by_cases h : e1 "NODE_ENV" = some "test"
    · rw [if_pos h, if_pos (htest.mp h)]
    · rw [if_neg h, if_neg (fun h2 => h (htest.mpr h2))]
  have hloaded : loadedConfig B host projectRoot e1 = loadedConfig B host projectRoot e2 := by
    simp [loadedConfig, huser, hconfig]
  unfold loadConfig
  rw [hloaded]
  cases loadedConfig B host projectRoot e2 with
  | error e => rfl
  | ok base =>
    simp only [bind, Except.bind]
    exact finalConfig_env_congr B base e1 e2 ht hn hname hclient

theorem truthy_assign_empty (env : Env) (v k : String) :
    truthy ((env.assign v (some "")) k) = truthy ((env.assign v none) k) := by
  unfold Env.assign
  by_cases h : k = v <;> simp [h, truthy]

theorem toNumber_assign_empty (B : Builtins) (hB : (B.stringToNumber "").truthy = false)
    (env : Env) (v k : String) :
    falsyAlike (B.toNumber ((env.assign v (some "")) k)) (B.toNumber ((env.assign v none) k)) := by
  unfold Env.assign falsyAlike
  by_cases h : k = v
  · right
    rw [if_pos h, if_pos h]
    exact ⟨hB, rfl⟩
  · left
    simp [h]

theorem assign_of_ne (env : Env) (v k : String) (value : Option String) (h : k ≠ v) :
    (env.assign v value) k = env k := by
  simp [Env.assign, h]

/-- C11 at the failing input: a discovery URL is set and the base has the
`client_id` `file-id`.  With `AUTUMN_OPENID_CLIENT_ID` bound to the empty
string the resolved `client_id` is the empty string; with the variable removed
it is the `client_id` of the base.  The two outcomes differ. -/
theorem empty_client_id_is_kept :
    (finalConfig refBuiltins
        { sampleConfig with openId := some ⟨.url "https://old.example", some "file-id",
            none, none⟩ }
        ((Env.ofList [("AUTUMN_OPENID_DISCOVERY_URL", "https://idp.example")]).assign
          "AUTUMN_OPENID_CLIENT_ID" (some ""))).map Config.openId
        = .ok (some ⟨.url "https://idp.example", some "", none, none⟩) ∧
      (finalConfig refBuiltins
        { sampleConfig with openId := some ⟨.url "https://old.example", some "file-id",
            none, none⟩ }
        ((Env.ofList [("AUTUMN_OPENID_DISCOVERY_URL", "https://idp.example")]).assign
          "AUTUMN_OPENID_CLIENT_ID" none)).map Config.openId
        = .ok (some ⟨.url "https://idp.example", some "file-id", none, none⟩) :=
  ⟨rfl, rfl⟩

/-- Where the empty string does count as absent.  Binding a variable to the
empty string gives the same outcome (the same configuration or the same error)
as removing it, for the override resolver on any base and for the module as a
whole, in each of these cases: the variable is none of the three client
variables and not the provider name; it is the provider name and the
structured issuer is not built (a discovery URL is set, or one of the three
endpoints is missing); it is a client variable and the `openId` rule is not
entered or throws.  `ToNumber` of the empty string is assumed falsy (it is
zero). -/
theorem empty_string_is_absent (B : Builtins) (host : Host) (projectRoot : String)
    (config : Config) (env : Env) (v : String)
    (hB : (B.stringToNumber "").truthy = false)
    (hname : v = "AUTUMN_OPENID_PROVIDER_NAME" →
      truthy (env "AUTUMN_OPENID_DISCOVERY_URL") ≠ none ∨
      truthy (env "AUTUMN_OPENID_AUTHORIZATION_ENDPOINT") = none ∨
      truthy (env "AUTUMN_OPENID_TOKEN_ENDPOINT") = none ∨
      truthy (env "AUTUMN_OPENID_USERINFO_ENDPOINT") = none)
    (hclient : v ∈ ["AUTUMN_OPENID_CLIENT_ID", "AUTUMN_OPENID_CLIENT_SECRET",
        "AUTUMN_OPENID_SERVER_HOSTNAME"] →
      truthy (env "AUTUMN_OPENID_DISCOVERY_URL") = none ∧
      (truthy (env "AUTUMN_OPENID_AUTHORIZATION_ENDPOINT") = none ∨
        truthy (env "AUTUMN_OPENID_TOKEN_ENDPOINT") = none ∨
        truthy (env "AUTUMN_OPENID_USERINFO_ENDPOINT") = none)) :
    finalConfig B config (env.assign v (some "")) = finalConfig B config (env.assign v none) ∧
      loadConfig B host projectRoot (env.assign v (some ""))
        = loadConfig B host projectRoot (env.assign v none) := by
  have hname2 : truthy ((env.assign v (some "")) "AUTUMN_OPENID_DISCOVERY_URL") = none →
      truthy ((env.assign v (some "")) "AUTUMN_OPENID_AUTHORIZATION_ENDPOINT") ≠ none →
      truthy ((env.assign v (some "")) "AUTUMN_OPENID_TOKEN_ENDPOINT") ≠ none →
      truthy ((env.assign v (some "")) "AUTUMN_OPENID_USERINFO_ENDPOINT") ≠ none →
      (env.assign v (some "")) "AUTUMN_OPENID_PROVIDER_NAME"
        = (env.assign v none) "AUTUMN_OPENID_PROVIDER_NAME" := by
    intro h1 h2 h3 h4
    by_cases hv : v = "AUTUMN_OPENID_PROVIDER_NAME"
    · exfalso
      subst hv
      rw [assign_of_ne _ _ _ _ (by decide)] at h1 h2 h3 h4
      rcases hname rfl with h | h | h | h
      · exact h h1
      · exact h2 h
      · exact h3 h
      · exact h4 h
    · rw [assign_of_ne _ _ _ _ (Ne.symm hv), assign_of_ne _ _ _ _ (Ne.symm hv)]
  have hclient2 : (truthy ((env.assign v (some "")) "AUTUMN_OPENID_DISCOVERY_URL") ≠ none ∨
        (truthy ((env.assign v (some "")) "AUTUMN_OPENID_AUTHORIZATION_ENDPOINT") ≠ none ∧
          truthy ((env.assign v (some "")) "AUTUMN_OPENID_TOKEN_ENDPOINT") ≠ none ∧
          truthy ((env.assign v (some "")) "AUTUMN_OPENID_USERINFO_ENDPOINT") ≠ none)) →
      (env.assign v (some "")) "AUTUMN_OPENID_CLIENT_ID"
        = (env.assign v none) "AUTUMN_OPENID_CLIENT_ID" ∧
      (env.assign v (some "")) "AUTUMN_OPENID_CLIENT_SECRET"
        = (env.assign v none) "AUTUMN_OPENID_CLIENT_SECRET" ∧
      (env.assign v (some "")) "AUTUMN_OPENID_SERVER_HOSTNAME"
        = (env.assign v none) "AUTUMN_OPENID_SERVER_HOSTNAME" := by
    intro hentered
    by_cases hmem : v ∈ ["AUTUMN_OPENID_CLIENT_ID", "AUTUMN_OPENID_CLIENT_SECRET",
        "AUTUMN_OPENID_SERVER_HOSTNAME"]
    · exfalso
      obtain ⟨h1, h2⟩ := hclient hmem
      have hvD : ("AUTUMN_OPENID_DISCOVERY_URL" : String) ≠ v := by
        intro e
        subst e
        revert hmem
        decide
      have hvA : ("AUTUMN_OPENID_AUTHORIZATION_ENDPOINT" : String) ≠ v := by
        intro e
        subst e
        revert hmem
        decide
      have hvT : ("AUTUMN_OPENID_TOKEN_ENDPOINT" : String) ≠ v := by
        intro e
        subst e
        revert hmem
        decide
      have hvU : ("AUTUMN_OPENID_USERINFO_ENDPOINT" : String) ≠ v := by
        intro e
        subst e
        revert hmem
        decide
      rw [assign_of_ne _ _ _ _ hvD, assign_of_ne _ _ _ _ hvA, assign_of_ne _ _ _ _ hvT,
        assign_of_ne _ _ _ _ hvU] at hentered
      rcases hentered with h | ⟨ha, ht, hu⟩
      · exact h h1
      · rcases h2 with h | h | h
        · exact ha h
        · exact ht h
        · exact hu h
    · simp only [List.mem_cons, List.mem_singleton, List.not_mem_nil, or_false, not_or] at hmem
      obtain ⟨n2, n3, n4⟩ := hmem
      simp [Env.assign, Ne.symm n2, Ne.symm n3, Ne.symm n4]
  have htest : (env.assign v (some "")) "NODE_ENV" = some "test" ↔
      (env.assign v none) "NODE_ENV" = some "test" := by
    unfold Env.assign
    by_cases h : ("NODE_ENV" : String) = v <;> simp [h]
  exact ⟨finalConfig_env_congr B config _ _ (truthy_assign_empty env v)
      (toNumber_assign_empty B hB env v) hname2 hclient2,
    loadConfig_env_congr B host projectRoot _ _ (truthy_assign_empty env v)
      (toNumber_assign_empty B hB env v) hname2 hclient2 htest⟩

theorem empty_string_is_absent_witness :
    finalConfig refBuiltins sampleConfig
        ((Env.ofList [("AUTUMN_OPENID_DISCOVERY_URL", "https://idp.example")]).assign
          "AUTUMN_OPENID_PROVIDER_NAME" (some ""))
      = finalConfig refBuiltins sampleConfig
        ((Env.ofList [("AUTUMN_OPENID_DISCOVERY_URL", "https://idp.example")]).assign
          "AUTUMN_OPENID_PROVIDER_NAME" none) :=
  (empty_string_is_absent refBuiltins sampleHost "/app" sampleConfig
    (Env.ofList [("AUTUMN_OPENID_DISCOVERY_URL", "https://idp.example")])
    "AUTUMN_OPENID_PROVIDER_NAME" rfl (fun _ => Or.inl (by decide))
    (fun h => absurd h (by decide))).1

end LoadConfig
